import Mathlib

/-! Talon SRX closed-loop tick: `PID_Calc1Ms`

A shallow embedding of `Talon_SRX Motion Controller/Talon SRX PID Algorithm.c`.

Numeric conventions of the embedding:

* a C `double` is an exact rational (`ℚ`): rounding of the binary format is not modelled;
* an `int32_t` is an `Int` inside `[-2^31, 2^31)`; the conversion of a `double` to `int32_t`
  truncates toward zero; outside that range the C standard defines no result (`toInt32`
  yields `none`, and so does `PID_Calc1Ms`), while the build delivers `-2^31` (`cvtInt32`,
  used by the total `PID_Calc1Ms_build`); the two agree wherever `PID_Calc1Ms` has a result;
* integer negation wraps modulo `2^32` (`wrap32`), and the comparison of an `int32_t` with a
  `uint32_t` is done on the value converted to `uint32_t` (`toUInt32`);
* a `uint8_t` flag is a `Bool` (`true` for nonzero), `bool notFirst` is a `Bool`.

The four collaborators that the routine calls and that are not part of the file
(`MotControlProf_GetSlot`, `BDC_GetThrot`, `PID_Mux_Unsigned`, `PID_Mux_Signed`) are
parameters of the embedding, gathered in `Externals`.
-/

namespace TalonSRX

/-! ## Data model -/

/-- PID structure (source lines 17-25). -/
structure pid_t where
  /-- set to 1 if not first scan (`bool`) -/
  notFirst : Bool
  /-- setpoint (`double`) -/
  target : ℚ
  /-- current error (`int32_t`) -/
  err : Int
  /-- accumulated integral value (`double`) -/
  iAccum : ℚ
  /-- derivative error (`double`) -/
  dErr : ℚ
  /-- out value before applying CloseLoopRampRate (`double`) -/
  outBeforRmp : ℚ
  /-- output value after ramp rate (`double`) -/
  out : ℚ
  /-- previous error, used to compute derivative (`double`) -/
  prevErr : ℚ
  deriving DecidableEq

/-- Motor Controller Profile structure (source lines 27-33). -/
structure MotorControlProfile_t where
  /-- Proportional Gain Factor (`double`) -/
  P : ℚ
  /-- Integral Gain Factor (`double`) -/
  I : ℚ
  /-- Derivative Gain Factor (`double`) -/
  D : ℚ
  /-- Feedforward Gain Factor (`double`) -/
  F : ℚ
  /-- Integral Error Zone (`uint32_t`) -/
  IZone : Nat
  /-- ramp rate, throttle units per ms (`double`) -/
  CloseLoopRampRate : ℚ
  deriving DecidableEq

/-- The collaborators of `PID_Calc1Ms` whose code is not in the file: the selected slot,
the throttle reported by the driver, and the two gain multipliers. -/
structure Externals where
  /-- value returned by `MotControlProf_GetSlot()` -/
  MotControlProf_GetSlot : MotorControlProfile_t
  /-- value returned by `BDC_GetThrot()` -/
  BDC_GetThrot : ℚ
  /-- the call `PID_Mux_Unsigned(value, gain)` -/
  PID_Mux_Unsigned : ℚ → ℚ → ℚ
  /-- the call `PID_Mux_Signed(value, gain)` -/
  PID_Mux_Signed : ℚ → ℚ → ℚ

/-! ## Machine arithmetic -/

/-- Truncation toward zero, the rounding of a C conversion from `double` to an integer type. -/
def truncQ (q : ℚ) : Int :=
  if 0 ≤ q then ⌊q⌋ else -⌊-q⌋

/-- Conversion of a `double` to `int32_t`: the truncated value when it is representable,
no result otherwise. -/
def toInt32 (q : ℚ) : Option Int :=
  if -2147483648 ≤ truncQ q ∧ truncQ q ≤ 2147483647 then some (truncQ q) else none

/-- Two's complement wrap of an integer into the `int32_t` range. -/
def wrap32 (z : Int) : Int :=
  (z + 2147483648) % 4294967296 - 2147483648

/-- Conversion of an `int32_t` to `uint32_t`. -/
def toUInt32 (z : Int) : Nat :=
  (z % 4294967296).toNat

/-! ## The routine -/

/-- The rate limiter, source lines 139-164: the new `pid->out` computed from
`slot->CloseLoopRampRate`, `pid->outBeforRmp` and the current `pid->out`. -/
def rampLimit (CloseLoopRampRate outBeforRmp out : ℚ) : Option ℚ :=
  if CloseLoopRampRate ≠ 0 then
    if outBeforRmp ≥ out then
      -- int32_t deltaUp = pid->outBeforRmp - pid->out;
      match toInt32 (outBeforRmp - out) with
      | none => none
      | some deltaUp =>
        if (deltaUp : ℚ) > CloseLoopRampRate then
          -- deltaUp = slot->CloseLoopRampRate;
          match toInt32 CloseLoopRampRate with
          | none => none
          | some deltaUp => some (out + deltaUp)
        else
          some (out + deltaUp)
    else
      -- int32_t deltaDn = pid->out - pid->outBeforRmp;
      match toInt32 (out - outBeforRmp) with
      | none => none
      | some deltaDn =>
        if (deltaDn : ℚ) > CloseLoopRampRate then
          -- deltaDn = slot->CloseLoopRampRate;
          match toInt32 CloseLoopRampRate with
          | none => none
          | some deltaDn => some (out - deltaDn)
        else
          some (out - deltaDn)
  else
    some outBeforRmp

/-- The absolute error used by the IZone logic, source lines 50-53:
`absErr = err; if (err < 0) absErr = -absErr;`. -/
def absErr (err : Int) : Int :=
  if err < 0 then wrap32 (-err) else err

/-- Integral error, source lines 55-77. `throt` is the value of `BDC_GetThrot()`, which the
first scan stores in `pid->out`. -/
def integralStep (slot : MotorControlProfile_t) (throt : ℚ) (err : Int) (pid : pid_t) : pid_t :=
  if pid.notFirst = false then
    -- first scan
    { pid with iAccum := 0, out := throt }
  else if slot.IZone = 0 ∨ toUInt32 (absErr err) < slot.IZone then
    -- update iAccum if IZone is not used OR absErr is within IZone
    { pid with iAccum := pid.iAccum + (err : ℚ) }
  else
    -- clear iAccum
    { pid with iAccum := 0 }

/-- Derivative error, source lines 79-91. -/
def derivativeStep (err : Int) (pid : pid_t) : pid_t :=
  if pid.notFirst = true then
    { pid with dErr := (err : ℚ) - pid.prevErr }
  else
    { pid with dErr := 0 }

/-- New pre-ramp output, source lines 93-114: the P, I, D and F components. -/
def preRampStep (ext : Externals) (err : Int) (pid : pid_t) : pid_t :=
  let slot := ext.MotControlProf_GetSlot
  -- P component
  let pidP : pid_t := { pid with outBeforRmp := ext.PID_Mux_Unsigned (err : ℚ) slot.P }
  -- I component, skipped if the gain or iAccum is 0
  let pidI : pid_t :=
    if pidP.iAccum ≠ 0 ∧ slot.I ≠ 0 then
      { pidP with outBeforRmp := pidP.outBeforRmp + ext.PID_Mux_Unsigned pidP.iAccum slot.I }
    else pidP
  -- D component
  let pidD : pid_t :=
    { pidI with outBeforRmp := pidI.outBeforRmp + ext.PID_Mux_Unsigned pidI.dErr slot.D }
  -- F component
  { pidD with outBeforRmp := pidD.outBeforRmp + ext.PID_Mux_Signed pidD.target slot.F }

/-- Arm for next pass, source lines 117-121. -/
def armStep (err : Int) (pid : pid_t) : pid_t :=
  { pid with prevErr := (err : ℚ), notFirst := true }

/-- One direction and reverse output options, source lines 124-136. -/
def directionStep (revMotDuringCloseLoopEn oneDirOnly : Bool) (pid : pid_t) : pid_t :=
  -- only allow positive output if oneDirection is true
  let pidC : pid_t :=
    if oneDirOnly = true then
      (if pid.outBeforRmp < 0 then { pid with outBeforRmp := 0 } else pid)
    else pid
  -- invert the output if revMotDuringCloseLoopEn is true
  if revMotDuringCloseLoopEn = true then
    { pidC with outBeforRmp := -pidC.outBeforRmp }
  else pidC

/-- Limit output based on CloseLoopRampRate, source lines 139-164, on the state. -/
def rampStep (slot : MotorControlProfile_t) (pid : pid_t) : Option pid_t :=
  match rampLimit slot.CloseLoopRampRate pid.outBeforRmp pid.out with
  | none => none
  | some out => some { pid with out := out }

/-- One call of `PID_Calc1Ms(pid, pos, revMotDuringCloseLoopEn, oneDirOnly)`, source lines
38-165, as a function from the state before the call to the state after it: the blocks of
the body in their order. The result is `none` when a conversion to `int32_t` has no defined
value. -/
def PID_Calc1Ms (ext : Externals) (pid : pid_t) (pos : Int)
    (revMotDuringCloseLoopEn oneDirOnly : Bool) : Option pid_t :=
  -- grab selected slot
  let slot := ext.MotControlProf_GetSlot
  -- int32_t err = pid->target - pos;
  match toInt32 (pid.target - (pos : ℚ)) with
  | none => none
  | some err =>
    rampStep slot
      (directionStep revMotDuringCloseLoopEn oneDirOnly
        (armStep err
          (preRampStep ext err
            (derivativeStep err
              (integralStep slot ext.BDC_GetThrot err { pid with err := err })))))

/-- Modelled from the spec: `PID_Mux_Unsigned`, of which the file has only the name and the
comment "multiply err value by unsigned gain value". The spec's unsigned-gain multiply is a
multiplication by a nonnegative scalar that keeps the sign and the exact magnitude scaling of
the signed operand. -/
def PID_Mux_Unsigned (value gain : ℚ) : ℚ :=
  value * gain

/-- Modelled from the spec: `PID_Mux_Signed`, which the file only calls. The spec's signed
multiply of the F term is ordinary signed multiplication. -/
def PID_Mux_Signed (value gain : ℚ) : ℚ :=
  value * gain

/-- The collaborators with the two multipliers as the spec describes them, for a given slot
and driver throttle. -/
def specExternals (slot : MotorControlProfile_t) (throt : ℚ) : Externals :=
  { MotControlProf_GetSlot := slot
    BDC_GetThrot := throt
    PID_Mux_Unsigned := PID_Mux_Unsigned
    PID_Mux_Signed := PID_Mux_Signed }

/-- The pre-ramp block without the guard on the I component, the variant that the spec
allows ("implementations may drop the guard"), to be compared with `preRampStep`. -/
def preRampStep_noSkip (ext : Externals) (err : Int) (pid : pid_t) : pid_t :=
  let slot := ext.MotControlProf_GetSlot
  let pidP : pid_t := { pid with outBeforRmp := ext.PID_Mux_Unsigned (err : ℚ) slot.P }
  let pidI : pid_t :=
    { pidP with outBeforRmp := pidP.outBeforRmp + ext.PID_Mux_Unsigned pidP.iAccum slot.I }
  let pidD : pid_t :=
    { pidI with outBeforRmp := pidI.outBeforRmp + ext.PID_Mux_Unsigned pidI.dErr slot.D }
  { pidD with outBeforRmp := pidD.outBeforRmp + ext.PID_Mux_Signed pidD.target slot.F }

/-- The state that the rate limiter receives, source lines 46-136 run on `pid` with the
converted error `err`: the blocks of `PID_Calc1Ms` before `rampStep`. -/
def limiterInput (ext : Externals) (pid : pid_t) (err : Int)
    (revMotDuringCloseLoopEn oneDirOnly : Bool) : pid_t :=
  directionStep revMotDuringCloseLoopEn oneDirOnly
    (armStep err
      (preRampStep ext err
        (derivativeStep err
          (integralStep ext.MotControlProf_GetSlot ext.BDC_GetThrot err
            { pid with err := err }))))

/-- What one call of a sequence receives from outside: the collaborators' values for that
call, the setpoint that the caller has ramped into `pid->target` before the call, and the
three arguments. -/
structure Tick where
  /-- slot, driver throttle and multipliers during the call -/
  ext : Externals
  /-- value of `pid->target` written by the caller before the call -/
  target : ℚ
  /-- process variable -/
  pos : Int
  /-- reverse flag -/
  revMotDuringCloseLoopEn : Bool
  /-- one direction flag -/
  oneDirOnly : Bool

/-- A sequence of calls of `PID_Calc1Ms` on one PID structure: before each call the caller
writes the setpoint, and nothing else touches the structure between calls. -/
def runTicks : pid_t → List Tick → Option pid_t
  | pid, [] => some pid
  | pid, t :: ts =>
    match PID_Calc1Ms t.ext { pid with target := t.target } t.pos
        t.revMotDuringCloseLoopEn t.oneDirOnly with
    | none => none
    | some pid' => runTicks pid' ts

/-! ## The routine on the build

The C standard gives no value to the conversion of a `double` whose truncation is not an
`int32_t`. The compiled routine delivers one all the same: the conversion instruction of the
build returns `-2^31` for every operand it cannot represent. The definitions below are the
same blocks with that conversion in place of `toInt32`; they are total. -/

/-- Conversion of a `double` to `int32_t` as the build performs it: the truncated value when
it is representable, `-2^31` otherwise. -/
def cvtInt32 (q : ℚ) : Int :=
  if -2147483648 ≤ truncQ q ∧ truncQ q ≤ 2147483647 then truncQ q else -2147483648

/-- The rate limiter, source lines 139-164, with the conversions of the build. -/
def rampLimit_build (CloseLoopRampRate outBeforRmp out : ℚ) : ℚ :=
  if CloseLoopRampRate ≠ 0 then
    if outBeforRmp ≥ out then
      -- int32_t deltaUp = pid->outBeforRmp - pid->out;
      let deltaUp : Int := cvtInt32 (outBeforRmp - out)
      -- if (deltaUp > slot->CloseLoopRampRate) deltaUp = slot->CloseLoopRampRate;
      let deltaUp : Int :=
        if (deltaUp : ℚ) > CloseLoopRampRate then cvtInt32 CloseLoopRampRate else deltaUp
      out + (deltaUp : ℚ)
    else
      -- int32_t deltaDn = pid->out - pid->outBeforRmp;
      let deltaDn : Int := cvtInt32 (out - outBeforRmp)
      -- if (deltaDn > slot->CloseLoopRampRate) deltaDn = slot->CloseLoopRampRate;
      let deltaDn : Int :=
        if (deltaDn : ℚ) > CloseLoopRampRate then cvtInt32 CloseLoopRampRate else deltaDn
      out - (deltaDn : ℚ)
  else
    outBeforRmp

/-- One call of `PID_Calc1Ms` on the build, source lines 38-165: the blocks of `PID_Calc1Ms`
in the same order, every conversion to `int32_t` done by `cvtInt32`. -/
def PID_Calc1Ms_build (ext : Externals) (pid : pid_t) (pos : Int)
    (revMotDuringCloseLoopEn oneDirOnly : Bool) : pid_t :=
  -- int32_t err = pid->target - pos;
  let err : Int := cvtInt32 (pid.target - (pos : ℚ))
  let pidL : pid_t := limiterInput ext pid err revMotDuringCloseLoopEn oneDirOnly
  -- limit output based on CloseLoopRampRate
  { pidL with
    out := rampLimit_build ext.MotControlProf_GetSlot.CloseLoopRampRate pidL.outBeforRmp
      pidL.out }

/-! ## Concrete profiles and states used as test inputs -/

/-- The profile of the spec's scenario: `P = 2`, `I = D = F = 0`, no zone, no ramp. -/
def scenarioSlot : MotorControlProfile_t :=
  { P := 2, I := 0, D := 0, F := 0, IZone := 0, CloseLoopRampRate := 0 }

/-- The state of the spec's scenario: first scan, `target = 100`. -/
def scenarioPid : pid_t :=
  { notFirst := false, target := 100, err := 0, iAccum := 0, dErr := 0, outBeforRmp := 0,
    out := 0, prevErr := 0 }

/-- The state after the scenario tick (`pos = 0`, throttle 0, both flags clear). -/
def scenarioAfter : pid_t :=
  { notFirst := true, target := 100, err := 100, iAccum := 0, dErr := 0, outBeforRmp := 200,
    out := 200, prevErr := 100 }

/-- The state after the scenario tick run with both flags set. -/
def scenarioAfterBothFlags : pid_t :=
  { notFirst := true, target := 100, err := 100, iAccum := 0, dErr := 0, outBeforRmp := -200,
    out := -200, prevErr := 100 }

/-- The state after the scenario tick run with `oneDirOnly` set alone. -/
def scenarioAfterOneDir : pid_t :=
  { scenarioAfter with outBeforRmp := 200 }

/-- The scenario's profile with `CloseLoopRampRate = 10`. -/
def rampSlot : MotorControlProfile_t :=
  { scenarioSlot with CloseLoopRampRate := 10 }

/-- The state after the scenario tick under `rampSlot`. -/
def rampAfter : pid_t :=
  { scenarioAfter with out := 10 }

/-- The scenario's profile with the fractional `CloseLoopRampRate = 5/2`. -/
def halfRampSlot : MotorControlProfile_t :=
  { scenarioSlot with CloseLoopRampRate := 5 / 2 }

/-- The state after the scenario tick under `halfRampSlot`: the step is 2, not 5/2. -/
def halfRampAfter : pid_t :=
  { scenarioAfter with out := 2 }

/-- The scenario's state on a later scan (`notFirst = 1`, `out = 0`). -/
def warmPid : pid_t :=
  { scenarioPid with notFirst := true }

/-- The state after a tick of `warmPid` under `rampSlot`. -/
def warmAfter : pid_t :=
  { notFirst := true, target := 100, err := 100, iAccum := 100, dErr := 100,
    outBeforRmp := 200, out := 10, prevErr := 100 }

/-- A profile with an integral zone of 5 and `I = 1`. -/
def zoneSlot : MotorControlProfile_t :=
  { scenarioSlot with I := 1, IZone := 5 }

/-- A warm state with a wound-up accumulator whose next error is the most negative
`int32_t`. -/
def woundPid : pid_t :=
  { scenarioPid with notFirst := true, target := -2147483648, iAccum := 7 }

/-- The state after a tick of `woundPid` under `zoneSlot`. -/
def woundAfter : pid_t :=
  { notFirst := true, target := -2147483648, err := -2147483648, iAccum := 0,
    dErr := -2147483648, outBeforRmp := -4294967296, out := -4294967296,
    prevErr := -2147483648 }

/-- A profile with an integral zone of 10 and `I = 1`. -/
def zone10Slot : MotorControlProfile_t :=
  { scenarioSlot with I := 1, IZone := 10 }

/-- A warm state with `iAccum = 8` whose next error is 5, inside the zone of 10. -/
def accPid : pid_t :=
  { scenarioPid with notFirst := true, target := 5, iAccum := 8, prevErr := 5 }

/-- The state after a tick of `accPid` under `zone10Slot`: `iAccum = 13`. -/
def accAfter : pid_t :=
  { notFirst := true, target := 5, err := 5, iAccum := 13, dErr := 0, outBeforRmp := 23,
    out := 23, prevErr := 5 }

/-- A warm state at rest on its target with a negative output, `out = -100`. -/
def negOutPid : pid_t :=
  { scenarioPid with notFirst := true, target := 0, out := -100 }

/-- The state after a tick of `negOutPid` under `rampSlot` with `oneDirOnly` set. -/
def negOutAfter : pid_t :=
  { notFirst := true, target := 0, err := 0, iAccum := 0, dErr := 0, outBeforRmp := 0,
    out := -90, prevErr := 0 }

/-- The scenario's state with the setpoint `2^31`, whose error does not fit an `int32_t`. -/
def hugePid : pid_t :=
  { scenarioPid with target := 2147483648 }

/-- A profile with the fractional gain `P = 1/2` and `CloseLoopRampRate = 10`. -/
def halfGainSlot : MotorControlProfile_t :=
  { scenarioSlot with P := 1 / 2, CloseLoopRampRate := 10 }

/-- A warm state with `out = 0` whose next error is 1. -/
def unitPid : pid_t :=
  { scenarioPid with notFirst := true, target := 1 }

/-- The state after a tick of `unitPid` under `halfGainSlot`: `outBeforRmp = 1/2`, `out`
still 0. -/
def unitAfter : pid_t :=
  { notFirst := true, target := 1, err := 1, iAccum := 1, dErr := 1, outBeforRmp := 1 / 2,
    out := 0, prevErr := 1 }

/-- The scenario's profile with the negative `CloseLoopRampRate = -5`. -/
def negRampSlot : MotorControlProfile_t :=
  { scenarioSlot with CloseLoopRampRate := -5 }

/-- A warm state at rest on its target with `out = 0`. -/
def restPid : pid_t :=
  { scenarioPid with notFirst := true, target := 0 }

/-- The state after a tick of `restPid` under `negRampSlot` with `oneDirOnly` set. -/
def restAfter : pid_t :=
  { notFirst := true, target := 0, err := 0, iAccum := 0, dErr := 0, outBeforRmp := 0,
    out := -5, prevErr := 0 }

/-- The state after a tick of `restPid` under `rampSlot` with `oneDirOnly` set. -/
def restAfterRamp : pid_t :=
  { notFirst := true, target := 0, err := 0, iAccum := 0, dErr := 0, outBeforRmp := 0,
    out := 0, prevErr := 0 }

/-- A first-scan state with the scenario's setpoint and stale values in every other field. -/
def stalePid : pid_t :=
  { notFirst := false, target := 100, err := 7, iAccum := 55, dErr := -3, outBeforRmp := 9,
    out := -40, prevErr := 12 }

/-- The second tick of the scenario: setpoint 100 again, process variable 30. -/
def secondTick : Tick :=
  { ext := specExternals rampSlot 0, target := 100, pos := 30,
    revMotDuringCloseLoopEn := false, oneDirOnly := true }

/-- The state after `secondTick` run on `rampAfter`. -/
def secondAfter : pid_t :=
  { notFirst := true, target := 100, err := 70, iAccum := 70, dErr := -30,
    outBeforRmp := 140, out := 20, prevErr := 70 }

/-- A warm state with `out = 0` and the setpoint `2^31 - 1`: under `rampSlot` (`P = 2`) the
pre-ramp output is `2^32 - 2`, a distance from `out` that no `int32_t` holds. -/
def farPid : pid_t :=
  { scenarioPid with notFirst := true, target := 2147483647 }

/-- The state that the build leaves after a tick of `farPid` under `rampSlot`, the flags
clear or `oneDirOnly` set alone: `out = -2^31`. -/
def farAfter : pid_t :=
  { notFirst := true, target := 2147483647, err := 2147483647, iAccum := 2147483647,
    dErr := 2147483647, outBeforRmp := 4294967294, out := -2147483648,
    prevErr := 2147483647 }

/-- The first-scan state with the setpoint `2^31 - 1`. -/
def farColdPid : pid_t :=
  { scenarioPid with target := 2147483647 }

/-- The state that the build leaves after the first scan of `farColdPid` under `rampSlot`
with driver throttle 0. -/
def farColdAfter : pid_t :=
  { notFirst := true, target := 2147483647, err := 2147483647, iAccum := 0, dErr := 0,
    outBeforRmp := 4294967294, out := -2147483648, prevErr := 2147483647 }

/-! ## Arithmetic lemmas -/

theorem truncQ_of_nonneg {q : ℚ} (hq : 0 ≤ q) : truncQ q = ⌊q⌋ := by
  simp [truncQ, hq]

theorem truncQ_nonneg {q : ℚ} (hq : 0 ≤ q) : 0 ≤ truncQ q := by
  rw [truncQ_of_nonneg hq]
  exact Int.floor_nonneg.mpr hq

theorem truncQ_le {q : ℚ} (hq : 0 ≤ q) : (truncQ q : ℚ) ≤ q := by
  rw [truncQ_of_nonneg hq]
  exact Int.floor_le q

theorem truncQ_intCast (z : Int) : truncQ (z : ℚ) = z := by
  unfold truncQ
  split
  · exact Int.floor_intCast z
  · rw [← Int.cast_neg, Int.floor_intCast]; omega

theorem toInt32_eq_some {q : ℚ} {z : Int} (h : toInt32 q = some z) :
    z = truncQ q ∧ -2147483648 ≤ z ∧ z ≤ 2147483647 := by
  unfold toInt32 at h
  split at h
  · rename_i hr
    simp only [Option.some.injEq] at h
    subst h
    exact ⟨rfl, hr⟩
  · simp at h

/-! ## Frame lemmas: the fields a block leaves alone -/

@[simp]
theorem integralStep_notFirst (slot : MotorControlProfile_t) (throt : ℚ) (err : Int) (pid : pid_t) :
    (integralStep slot throt err pid).notFirst = pid.notFirst := by
  unfold integralStep; split_ifs <;> rfl

@[simp]
theorem integralStep_target (slot : MotorControlProfile_t) (throt : ℚ) (err : Int) (pid : pid_t) :
    (integralStep slot throt err pid).target = pid.target := by
  unfold integralStep; split_ifs <;> rfl

@[simp]
theorem integralStep_err (slot : MotorControlProfile_t) (throt : ℚ) (err : Int) (pid : pid_t) :
    (integralStep slot throt err pid).err = pid.err := by
  unfold integralStep; split_ifs <;> rfl

@[simp]
theorem integralStep_dErr (slot : MotorControlProfile_t) (throt : ℚ) (err : Int) (pid : pid_t) :
    (integralStep slot throt err pid).dErr = pid.dErr := by
  unfold integralStep; split_ifs <;> rfl

@[simp]
theorem integralStep_outBeforRmp (slot : MotorControlProfile_t) (throt : ℚ) (err : Int) (pid : pid_t) :
    (integralStep slot throt err pid).outBeforRmp = pid.outBeforRmp := by
  unfold integralStep; split_ifs <;> rfl

@[simp]
theorem integralStep_prevErr (slot : MotorControlProfile_t) (throt : ℚ) (err : Int) (pid : pid_t) :
    (integralStep slot throt err pid).prevErr = pid.prevErr := by
  unfold integralStep; split_ifs <;> rfl

@[simp]
theorem derivativeStep_notFirst (err : Int) (pid : pid_t) :
    (derivativeStep err pid).notFirst = pid.notFirst := by
  unfold derivativeStep; split_ifs <;> rfl

@[simp]
theorem derivativeStep_target (err : Int) (pid : pid_t) :
    (derivativeStep err pid).target = pid.target := by
  unfold derivativeStep; split_ifs <;> rfl

@[simp]
theorem derivativeStep_err (err : Int) (pid : pid_t) :
    (derivativeStep err pid).err = pid.err := by
  unfold derivativeStep; split_ifs <;> rfl

@[simp]
theorem derivativeStep_iAccum (err : Int) (pid : pid_t) :
    (derivativeStep err pid).iAccum = pid.iAccum := by
  unfold derivativeStep; split_ifs <;> rfl

@[simp]
theorem derivativeStep_outBeforRmp (err : Int) (pid : pid_t) :
    (derivativeStep err pid).outBeforRmp = pid.outBeforRmp := by
  unfold derivativeStep; split_ifs <;> rfl

@[simp]
theorem derivativeStep_out (err : Int) (pid : pid_t) :
    (derivativeStep err pid).out = pid.out := by
  unfold derivativeStep; split_ifs <;> rfl

@[simp]
theorem derivativeStep_prevErr (err : Int) (pid : pid_t) :
    (derivativeStep err pid).prevErr = pid.prevErr := by
  unfold derivativeStep; split_ifs <;> rfl

@[simp]
theorem preRampStep_notFirst (ext : Externals) (err : Int) (pid : pid_t) :
    (preRampStep ext err pid).notFirst = pid.notFirst := by
  unfold preRampStep; dsimp only; split_ifs <;> rfl

@[simp]
theorem preRampStep_target (ext : Externals) (err : Int) (pid : pid_t) :
    (preRampStep ext err pid).target = pid.target := by
  unfold preRampStep; dsimp only; split_ifs <;> rfl

@[simp]
theorem preRampStep_err (ext : Externals) (err : Int) (pid : pid_t) :
    (preRampStep ext err pid).err = pid.err := by
  unfold preRampStep; dsimp only; split_ifs <;> rfl

@[simp]
theorem preRampStep_iAccum (ext : Externals) (err : Int) (pid : pid_t) :
    (preRampStep ext err pid).iAccum = pid.iAccum := by
  unfold preRampStep; dsimp only; split_ifs <;> rfl

@[simp]
theorem preRampStep_dErr (ext : Externals) (err : Int) (pid : pid_t) :
    (preRampStep ext err pid).dErr = pid.dErr := by
  unfold preRampStep; dsimp only; split_ifs <;> rfl

@[simp]
theorem preRampStep_out (ext : Externals) (err : Int) (pid : pid_t) :
    (preRampStep ext err pid).out = pid.out := by
  unfold preRampStep; dsimp only; split_ifs <;> rfl

@[simp]
theorem preRampStep_prevErr (ext : Externals) (err : Int) (pid : pid_t) :
    (preRampStep ext err pid).prevErr = pid.prevErr := by
  unfold preRampStep; dsimp only; split_ifs <;> rfl

@[simp]
theorem armStep_target (err : Int) (pid : pid_t) :
    (armStep err pid).target = pid.target := by
  rfl

@[simp]
theorem armStep_err (err : Int) (pid : pid_t) :
    (armStep err pid).err = pid.err := by
  rfl

@[simp]
theorem armStep_iAccum (err : Int) (pid : pid_t) :
    (armStep err pid).iAccum = pid.iAccum := by
  rfl

@[simp]
theorem armStep_dErr (err : Int) (pid : pid_t) :
    (armStep err pid).dErr = pid.dErr := by
  rfl

@[simp]
theorem armStep_outBeforRmp (err : Int) (pid : pid_t) :
    (armStep err pid).outBeforRmp = pid.outBeforRmp := by
  rfl

@[simp]
theorem armStep_out (err : Int) (pid : pid_t) :
    (armStep err pid).out = pid.out := by
  rfl

@[simp]
theorem directionStep_notFirst (rev one : Bool) (pid : pid_t) :
    (directionStep rev one pid).notFirst = pid.notFirst := by
  cases rev <;> cases one <;> simp only [directionStep] <;> split_ifs <;> rfl

@[simp]
theorem directionStep_target (rev one : Bool) (pid : pid_t) :
    (directionStep rev one pid).target = pid.target := by
  cases rev <;> cases one <;> simp only [directionStep] <;> split_ifs <;> rfl

@[simp]
theorem directionStep_err (rev one : Bool) (pid : pid_t) :
    (directionStep rev one pid).err = pid.err := by
  cases rev <;> cases one <;> simp only [directionStep] <;> split_ifs <;> rfl

@[simp]
theorem directionStep_iAccum (rev one : Bool) (pid : pid_t) :
    (directionStep rev one pid).iAccum = pid.iAccum := by
  cases rev <;> cases one <;> simp only [directionStep] <;> split_ifs <;> rfl

@[simp]
theorem directionStep_dErr (rev one : Bool) (pid : pid_t) :
    (directionStep rev one pid).dErr = pid.dErr := by
  cases rev <;> cases one <;> simp only [directionStep] <;> split_ifs <;> rfl

@[simp]
theorem directionStep_out (rev one : Bool) (pid : pid_t) :
    (directionStep rev one pid).out = pid.out := by
  cases rev <;> cases one <;> simp only [directionStep] <;> split_ifs <;> rfl

@[simp]
theorem directionStep_prevErr (rev one : Bool) (pid : pid_t) :
    (directionStep rev one pid).prevErr = pid.prevErr := by
  cases rev <;> cases one <;> simp only [directionStep] <;> split_ifs <;> rfl

/-! ## The fields a block writes -/

theorem integralStep_iAccum (slot : MotorControlProfile_t) (throt : ℚ) (err : Int) (pid : pid_t) :
    (integralStep slot throt err pid).iAccum =
      (if pid.notFirst = false then 0
       else if slot.IZone = 0 ∨ toUInt32 (absErr err) < slot.IZone
         then pid.iAccum + (err : ℚ) else 0) := by
  unfold integralStep; split_ifs <;> rfl

theorem integralStep_out (slot : MotorControlProfile_t) (throt : ℚ) (err : Int) (pid : pid_t) :
    (integralStep slot throt err pid).out = (if pid.notFirst = false then throt else pid.out) := by
  unfold integralStep; split_ifs <;> rfl

theorem derivativeStep_dErr (err : Int) (pid : pid_t) :
    (derivativeStep err pid).dErr =
      (if pid.notFirst = true then (err : ℚ) - pid.prevErr else 0) := by
  unfold derivativeStep; split_ifs <;> rfl

theorem preRampStep_outBeforRmp (ext : Externals) (err : Int) (pid : pid_t) :
    (preRampStep ext err pid).outBeforRmp =
      ext.PID_Mux_Unsigned (err : ℚ) ext.MotControlProf_GetSlot.P
        + (if pid.iAccum ≠ 0 ∧ ext.MotControlProf_GetSlot.I ≠ 0
            then ext.PID_Mux_Unsigned pid.iAccum ext.MotControlProf_GetSlot.I else 0)
        + ext.PID_Mux_Unsigned pid.dErr ext.MotControlProf_GetSlot.D
        + ext.PID_Mux_Signed pid.target ext.MotControlProf_GetSlot.F := by
  unfold preRampStep; dsimp only; split_ifs <;> simp

@[simp]
theorem armStep_prevErr (err : Int) (pid : pid_t) :
    (armStep err pid).prevErr = (err : ℚ) := rfl

@[simp]
theorem armStep_notFirst (err : Int) (pid : pid_t) :
    (armStep err pid).notFirst = true := rfl

theorem directionStep_outBeforRmp (rev one : Bool) (pid : pid_t) :
    (directionStep rev one pid).outBeforRmp =
      (if rev = true then
        -(if one = true then (if pid.outBeforRmp < 0 then 0 else pid.outBeforRmp)
          else pid.outBeforRmp)
       else (if one = true then (if pid.outBeforRmp < 0 then 0 else pid.outBeforRmp)
          else pid.outBeforRmp)) := by
  cases rev <;> cases one <;> simp only [directionStep] <;> split_ifs <;> rfl

/-- What a successful call leaves in every field. -/
theorem PID_Calc1Ms_eq_some {ext : Externals} {pid s' : pid_t} {pos : Int} {rev one : Bool}
    (h : PID_Calc1Ms ext pid pos rev one = some s') :
    toInt32 (pid.target - (pos : ℚ)) = some s'.err ∧
    s'.notFirst = true ∧ s'.target = pid.target ∧ s'.prevErr = (s'.err : ℚ) ∧
    s'.iAccum =
      (if pid.notFirst = false then 0
       else if ext.MotControlProf_GetSlot.IZone = 0 ∨
            toUInt32 (absErr s'.err) < ext.MotControlProf_GetSlot.IZone
         then pid.iAccum + (s'.err : ℚ) else 0) ∧
    s'.dErr = (if pid.notFirst = true then (s'.err : ℚ) - pid.prevErr else 0) ∧
    s'.outBeforRmp =
      (let sum : ℚ :=
        ext.PID_Mux_Unsigned (s'.err : ℚ) ext.MotControlProf_GetSlot.P
          + (if s'.iAccum ≠ 0 ∧ ext.MotControlProf_GetSlot.I ≠ 0
              then ext.PID_Mux_Unsigned s'.iAccum ext.MotControlProf_GetSlot.I else 0)
          + ext.PID_Mux_Unsigned s'.dErr ext.MotControlProf_GetSlot.D
          + ext.PID_Mux_Signed pid.target ext.MotControlProf_GetSlot.F
       let clamped : ℚ := if one = true then (if sum < 0 then 0 else sum) else sum
       if rev = true then -clamped else clamped) ∧
    rampLimit ext.MotControlProf_GetSlot.CloseLoopRampRate s'.outBeforRmp
      (if pid.notFirst = false then ext.BDC_GetThrot else pid.out) = some s'.out := by
  unfold PID_Calc1Ms at h
  cases herr : toInt32 (pid.target - (pos : ℚ)) with
  | none => simp [herr] at h
  | some err =>
    simp only [herr] at h
    unfold rampStep at h
    split at h
    · simp at h
    · rename_i out hout
      simp only [Option.some.injEq] at h
      subst h
      have hob := directionStep_outBeforRmp rev one
        (armStep err (preRampStep ext err (derivativeStep err
          (integralStep ext.MotControlProf_GetSlot ext.BDC_GetThrot err { pid with err := err }))))
      simp only [armStep_outBeforRmp, preRampStep_outBeforRmp, derivativeStep_iAccum,
        derivativeStep_target, integralStep_target] at hob
      simp only [directionStep_out, armStep_out, preRampStep_out, derivativeStep_out,
        integralStep_out] at hout
      refine ⟨by simp, by simp, by simp, by simp, ?_, ?_, ?_, ?_⟩
      · simp [integralStep_iAccum]
      · simp [derivativeStep_dErr]
      · simpa using hob
      · simpa using hout

/-! ## The rate limiter -/

/-- The step taken by the limiter from a nonnegative difference `diff` under a positive ramp
rate: the truncated difference, replaced by the truncated rate when it exceeds the rate. -/
theorem rampDelta_spec {R diff : ℚ} {d0 : Int} (hR : 0 < R) (hdiff : 0 ≤ diff)
    (h0 : toInt32 diff = some d0) :
    ∃ d : Int, (if (d0 : ℚ) > R then toInt32 R else some d0) = some d ∧
      0 ≤ d ∧ (d : ℚ) ≤ R ∧ (d : ℚ) ≤ diff ∧ d = min ⌊diff⌋ ⌊R⌋ := by
  obtain ⟨hd0, -, hd0max⟩ := toInt32_eq_some h0
  rw [truncQ_of_nonneg hdiff] at hd0
  have hRfl : (0 : Int) ≤ ⌊R⌋ := Int.floor_nonneg.mpr hR.le
  have hRle : ((⌊R⌋ : Int) : ℚ) ≤ R := Int.floor_le R
  have hdle : ((⌊diff⌋ : Int) : ℚ) ≤ diff := Int.floor_le diff
  have hd0nn : (0 : Int) ≤ ⌊diff⌋ := Int.floor_nonneg.mpr hdiff
  subst hd0
  by_cases hgt : ((⌊diff⌋ : Int) : ℚ) > R
  · have hlt : ⌊R⌋ < ⌊diff⌋ := by
      have hcast : ((⌊R⌋ : Int) : ℚ) < ((⌊diff⌋ : Int) : ℚ) := lt_of_le_of_lt hRle hgt
      exact_mod_cast hcast
    have hconv : toInt32 R = some ⌊R⌋ := by
      unfold toInt32
      rw [truncQ_of_nonneg hR.le, if_pos ⟨by omega, by omega⟩]
    refine ⟨⌊R⌋, ?_, hRfl, hRle, ?_, ?_⟩
    · rw [if_pos hgt, hconv]
    · exact le_trans hRle (le_trans hgt.le hdle)
    · rw [min_eq_right hlt.le]
  · have hle : ((⌊diff⌋ : Int) : ℚ) ≤ R := not_lt.mp hgt
    refine ⟨⌊diff⌋, ?_, hd0nn, hle, hdle, ?_⟩
    · rw [if_neg hgt]
    · rw [min_eq_left (Int.le_floor.mpr hle)]

/-- The limiter under a positive ramp rate: `out` moves toward `outBeforRmp` by a whole
number of units `d`, the smaller of the truncated distance and the truncated rate. -/
theorem rampLimit_pos {R ob o o' : ℚ} (hR : 0 < R) (h : rampLimit R ob o = some o') :
    (o ≤ ob ∧ ∃ d : Int, o' = o + d ∧ 0 ≤ d ∧ (d : ℚ) ≤ R ∧ (d : ℚ) ≤ ob - o ∧
        d = min ⌊ob - o⌋ ⌊R⌋) ∨
    (ob < o ∧ ∃ d : Int, o' = o - d ∧ 0 ≤ d ∧ (d : ℚ) ≤ R ∧ (d : ℚ) ≤ o - ob ∧
        d = min ⌊o - ob⌋ ⌊R⌋) := by
  unfold rampLimit at h
  rw [if_pos hR.ne'] at h
  by_cases hge : ob ≥ o
  · left
    refine ⟨hge, ?_⟩
    rw [if_pos hge] at h
    cases h0 : toInt32 (ob - o) with
    | none => simp [h0] at h
    | some d0 =>
      simp only [h0] at h
      obtain ⟨d, hd, h1, h2, h3, h4⟩ := rampDelta_spec hR (sub_nonneg.mpr hge) h0
      refine ⟨d, ?_, h1, h2, h3, h4⟩
      split_ifs at h hd with hgt
      · rw [hd] at h
        simpa using h.symm
      · simp only [Option.some.injEq] at h hd
        rw [← hd, ← h]
  · right
    have hlt : ob < o := not_le.mp hge
    refine ⟨hlt, ?_⟩
    rw [if_neg hge] at h
    cases h0 : toInt32 (o - ob) with
    | none => simp [h0] at h
    | some d0 =>
      simp only [h0] at h
      obtain ⟨d, hd, h1, h2, h3, h4⟩ := rampDelta_spec hR (sub_nonneg.mpr hlt.le) h0
      refine ⟨d, ?_, h1, h2, h3, h4⟩
      split_ifs at h hd with hgt
      · rw [hd] at h
        simpa using h.symm
      · simp only [Option.some.injEq] at h hd
        rw [← hd, ← h]

theorem rampLimit_zero {ob o o' : ℚ} (h : rampLimit 0 ob o = some o') : o' = ob := by
  unfold rampLimit at h
  simpa using h.symm

/-! ## The IZone comparison -/

/-- For an `int32_t` error the value that the IZone test compares, `absErr` converted to
`uint32_t`, is the true magnitude of the error, the most negative error included. -/
theorem toUInt32_absErr {err : Int} (hlo : -2147483648 ≤ err) (hhi : err ≤ 2147483647) :
    (toUInt32 (absErr err) : Int) = |err| := by
  unfold toUInt32 absErr wrap32
  rcases abs_cases err with ⟨h, _⟩ | ⟨h, _⟩ <;> rw [h] <;> split <;> omega

theorem natCast_le_abs_truncQ {q : ℚ} {n : ℕ} (h : (n : ℚ) ≤ |q|) : (n : Int) ≤ |truncQ q| := by
  unfold truncQ
  split
  · rename_i hq
    rw [abs_of_nonneg hq] at h
    have : (n : Int) ≤ ⌊q⌋ := Int.le_floor.mpr (by exact_mod_cast h)
    exact le_trans this (le_abs_self _)
  · rename_i hq
    rw [abs_of_neg (not_le.mp hq)] at h
    have : (n : Int) ≤ ⌊-q⌋ := Int.le_floor.mpr (by exact_mod_cast h)
    rw [abs_neg]
    exact le_trans this (le_abs_self _)

/-- The one-direction clamp yields a nonnegative value. -/
theorem clamp_nonneg (x : ℚ) : 0 ≤ (if x < 0 then 0 else x) := by
  split_ifs with hneg
  · exact le_refl 0
  · exact not_lt.mp hneg

/-! ## Evaluation of the routine on the test inputs -/

theorem scenario_eval :
    PID_Calc1Ms (specExternals scenarioSlot 0) scenarioPid 0 false false = some scenarioAfter := by
  norm_num [PID_Calc1Ms, rampStep, directionStep, armStep, preRampStep, derivativeStep,
    integralStep, rampLimit, toInt32, truncQ, absErr, wrap32, toUInt32, specExternals,
    PID_Mux_Unsigned, PID_Mux_Signed, scenarioSlot, scenarioPid, scenarioAfter]

theorem scenario_bothFlags_eval :
    PID_Calc1Ms (specExternals scenarioSlot 0) scenarioPid 0 true true =
      some scenarioAfterBothFlags := by
  norm_num [PID_Calc1Ms, rampStep, directionStep, armStep, preRampStep, derivativeStep,
    integralStep, rampLimit, toInt32, truncQ, absErr, wrap32, toUInt32, specExternals,
    PID_Mux_Unsigned, PID_Mux_Signed, scenarioSlot, scenarioPid, scenarioAfterBothFlags]

theorem scenario_oneDir_eval :
    PID_Calc1Ms (specExternals scenarioSlot 0) scenarioPid 0 false true =
      some scenarioAfterOneDir := by
  norm_num [PID_Calc1Ms, rampStep, directionStep, armStep, preRampStep, derivativeStep,
    integralStep, rampLimit, toInt32, truncQ, absErr, wrap32, toUInt32, specExternals,
    PID_Mux_Unsigned, PID_Mux_Signed, scenarioSlot, scenarioPid, scenarioAfterOneDir,
    scenarioAfter]

theorem ramp_eval :
    PID_Calc1Ms (specExternals rampSlot 0) scenarioPid 0 false false = some rampAfter := by
  norm_num [PID_Calc1Ms, rampStep, directionStep, armStep, preRampStep, derivativeStep,
    integralStep, rampLimit, toInt32, truncQ, absErr, wrap32, toUInt32, specExternals,
    PID_Mux_Unsigned, PID_Mux_Signed, scenarioSlot, scenarioPid, rampSlot, rampAfter,
    scenarioAfter]

theorem halfRamp_eval :
    PID_Calc1Ms (specExternals halfRampSlot 0) scenarioPid 0 false false =
      some halfRampAfter := by
  norm_num [PID_Calc1Ms, rampStep, directionStep, armStep, preRampStep, derivativeStep,
    integralStep, rampLimit, toInt32, truncQ, absErr, wrap32, toUInt32, specExternals,
    PID_Mux_Unsigned, PID_Mux_Signed, scenarioSlot, scenarioPid, halfRampSlot, halfRampAfter,
    scenarioAfter]

theorem warm_eval :
    PID_Calc1Ms (specExternals rampSlot 0) warmPid 0 false false = some warmAfter := by
  norm_num [PID_Calc1Ms, rampStep, directionStep, armStep, preRampStep, derivativeStep,
    integralStep, rampLimit, toInt32, truncQ, absErr, wrap32, toUInt32, specExternals,
    PID_Mux_Unsigned, PID_Mux_Signed, scenarioSlot, scenarioPid, rampSlot, warmPid, warmAfter]

theorem wound_eval :
    PID_Calc1Ms (specExternals zoneSlot 0) woundPid 0 false false = some woundAfter := by
  norm_num [PID_Calc1Ms, rampStep, directionStep, armStep, preRampStep, derivativeStep,
    integralStep, rampLimit, toInt32, truncQ, absErr, wrap32, toUInt32, specExternals,
    PID_Mux_Unsigned, PID_Mux_Signed, scenarioSlot, scenarioPid, zoneSlot, woundPid,
    woundAfter]

theorem acc_eval :
    PID_Calc1Ms (specExternals zone10Slot 0) accPid 0 false false = some accAfter := by
  norm_num [PID_Calc1Ms, rampStep, directionStep, armStep, preRampStep, derivativeStep,
    integralStep, rampLimit, toInt32, truncQ, absErr, wrap32, toUInt32, specExternals,
    PID_Mux_Unsigned, PID_Mux_Signed, scenarioSlot, scenarioPid, zone10Slot, accPid, accAfter]

theorem negOut_eval :
    PID_Calc1Ms (specExternals rampSlot 0) negOutPid 0 false true = some negOutAfter := by
  norm_num [PID_Calc1Ms, rampStep, directionStep, armStep, preRampStep, derivativeStep,
    integralStep, rampLimit, toInt32, truncQ, absErr, wrap32, toUInt32, specExternals,
    PID_Mux_Unsigned, PID_Mux_Signed, scenarioSlot, scenarioPid, rampSlot, negOutPid,
    negOutAfter]

/-! ## When the call is defined -/

theorem toInt32_isSome_of_range {q : ℚ} (hlo : -2147483649 < q) (hhi : q < 2147483648) :
    ∃ z : Int, toInt32 q = some z := by
  have hin : -2147483648 ≤ truncQ q ∧ truncQ q ≤ 2147483647 := by
    unfold truncQ
    split
    · rename_i hq
      have h0 : (0 : Int) ≤ ⌊q⌋ := Int.floor_nonneg.mpr hq
      have h1 : ⌊q⌋ < (2147483648 : Int) := Int.floor_lt.mpr (by exact_mod_cast hhi)
      omega
    · rename_i hq
      have hneg : (0 : ℚ) ≤ -q := by linarith
      have h0 : (0 : Int) ≤ ⌊-q⌋ := Int.floor_nonneg.mpr hneg
      have h1 : ⌊-q⌋ < (2147483649 : Int) :=
        Int.floor_lt.mpr (by push_cast; linarith)
      omega
  exact ⟨truncQ q, by unfold toInt32; rw [if_pos hin]⟩

/-- The limiter yields a value whenever the ramp rate is positive and the distance to cover
is below `2^31`. -/
theorem rampLimit_isSome {R ob o : ℚ} (hR : 0 < R) (hdist : |ob - o| < 2147483648) :
    ∃ o' : ℚ, rampLimit R ob o = some o' := by
  have hstep : ∀ diff : ℚ, 0 ≤ diff → diff < 2147483648 →
      ∃ d0 d : Int, toInt32 diff = some d0 ∧
        (if (d0 : ℚ) > R then toInt32 R else some d0) = some d := by
    intro diff h0 h1
    obtain ⟨d0, hd0⟩ := toInt32_isSome_of_range (lt_of_lt_of_le (by norm_num) h0) h1
    obtain ⟨d, hd, -⟩ := rampDelta_spec hR h0 hd0
    exact ⟨d0, d, hd0, hd⟩
  unfold rampLimit
  rw [if_pos hR.ne']
  by_cases hge : ob ≥ o
  · rw [if_pos hge]
    have habs : |ob - o| = ob - o := abs_of_nonneg (sub_nonneg.mpr hge)
    obtain ⟨d0, d, hd0, hd⟩ := hstep (ob - o) (sub_nonneg.mpr hge) (habs ▸ hdist)
    simp only [hd0]
    split_ifs at hd ⊢ with hgt
    · rw [hd]; exact ⟨_, rfl⟩
    · exact ⟨_, rfl⟩
  · rw [if_neg hge]
    have hlt : ob < o := not_le.mp hge
    have habs : |ob - o| = o - ob := by rw [abs_of_neg (sub_neg.mpr hlt)]; ring
    obtain ⟨d0, d, hd0, hd⟩ := hstep (o - ob) (sub_nonneg.mpr hlt.le) (habs ▸ hdist)
    simp only [hd0]
    split_ifs at hd ⊢ with hgt
    · rw [hd]; exact ⟨_, rfl⟩
    · exact ⟨_, rfl⟩

/-- The call is the rate limiter run on `limiterInput` once the error converts. -/
theorem PID_Calc1Ms_eq_rampStep {ext : Externals} {pid : pid_t} {pos err : Int}
    (rev one : Bool) (herr : toInt32 (pid.target - (pos : ℚ)) = some err) :
    PID_Calc1Ms ext pid pos rev one =
      rampStep ext.MotControlProf_GetSlot (limiterInput ext pid err rev one) := by
  unfold PID_Calc1Ms limiterInput
  simp only [herr]

/-! ## Evaluation of the routine on further test inputs -/

theorem unit_eval :
    PID_Calc1Ms (specExternals halfGainSlot 0) unitPid 0 false false = some unitAfter := by
  norm_num [PID_Calc1Ms, rampStep, directionStep, armStep, preRampStep, derivativeStep,
    integralStep, rampLimit, toInt32, truncQ, absErr, wrap32, toUInt32, specExternals,
    PID_Mux_Unsigned, PID_Mux_Signed, scenarioSlot, scenarioPid, halfGainSlot, unitPid,
    unitAfter]

theorem rest_negRamp_eval :
    PID_Calc1Ms (specExternals negRampSlot 0) restPid 0 false true = some restAfter := by
  norm_num [PID_Calc1Ms, rampStep, directionStep, armStep, preRampStep, derivativeStep,
    integralStep, rampLimit, toInt32, truncQ, absErr, wrap32, toUInt32, specExternals,
    PID_Mux_Unsigned, PID_Mux_Signed, scenarioSlot, scenarioPid, negRampSlot, restPid,
    restAfter]

theorem rest_ramp_eval :
    PID_Calc1Ms (specExternals rampSlot 0) restPid 0 false true = some restAfterRamp := by
  norm_num [PID_Calc1Ms, rampStep, directionStep, armStep, preRampStep, derivativeStep,
    integralStep, rampLimit, toInt32, truncQ, absErr, wrap32, toUInt32, specExternals,
    PID_Mux_Unsigned, PID_Mux_Signed, scenarioSlot, scenarioPid, rampSlot, restPid,
    restAfterRamp]

theorem second_eval :
    PID_Calc1Ms secondTick.ext { rampAfter with target := secondTick.target } secondTick.pos
      secondTick.revMotDuringCloseLoopEn secondTick.oneDirOnly = some secondAfter := by
  norm_num [PID_Calc1Ms, rampStep, directionStep, armStep, preRampStep, derivativeStep,
    integralStep, rampLimit, toInt32, truncQ, absErr, wrap32, toUInt32, specExternals,
    PID_Mux_Unsigned, PID_Mux_Signed, scenarioSlot, rampSlot, rampAfter, scenarioAfter,
    secondTick, secondAfter]

theorem stale_eval :
    PID_Calc1Ms (specExternals rampSlot 0) stalePid 0 false false = some rampAfter := by
  norm_num [PID_Calc1Ms, rampStep, directionStep, armStep, preRampStep, derivativeStep,
    integralStep, rampLimit, toInt32, truncQ, absErr, wrap32, toUInt32, specExternals,
    PID_Mux_Unsigned, PID_Mux_Signed, scenarioSlot, rampSlot, rampAfter, scenarioAfter,
    stalePid]

/-! ## Sequences of calls -/

/-- Once a call has been served, every later state of the sequence has `notFirst = 1`. -/
theorem runTicks_notFirst (ticks : List Tick) :
    ∀ pid s'' : pid_t, pid.notFirst = true → runTicks pid ticks = some s'' →
      s''.notFirst = true := by
  induction ticks with
  | nil =>
    intro pid s'' hnf hrun
    simp only [runTicks, Option.some.injEq] at hrun
    rw [← hrun]
    exact hnf
  | cons t ts ih =>
    intro pid s'' _ hrun
    simp only [runTicks] at hrun
    cases hstep : PID_Calc1Ms t.ext { pid with target := t.target } t.pos
        t.revMotDuringCloseLoopEn t.oneDirOnly with
    | none => simp [hstep] at hrun
    | some pid' =>
      simp only [hstep] at hrun
      exact ih pid' s'' (PID_Calc1Ms_eq_some hstep).2.1 hrun

/-- One call in one-direction mode without reversal, under a ramp rate that is not
negative, keeps `out` nonnegative when the limiter's baseline is nonnegative. -/
theorem oneDir_tick_nonneg {ext : Externals} {pid s' : pid_t} {pos : Int}
    (hR : 0 ≤ ext.MotControlProf_GetSlot.CloseLoopRampRate)
    (hbase : 0 ≤ (if pid.notFirst = false then ext.BDC_GetThrot else pid.out))
    (h : PID_Calc1Ms ext pid pos false true = some s') :
    0 ≤ s'.out := by
  obtain ⟨-, -, -, -, -, -, hob, hramp⟩ := PID_Calc1Ms_eq_some h
  have hobnn : 0 ≤ s'.outBeforRmp := by
    rw [hob]
    simp only [Bool.false_eq_true, if_false, if_true]
    exact clamp_nonneg _
  rcases hR.eq_or_lt with h0 | hpos
  · rw [← h0] at hramp
    rw [rampLimit_zero hramp]
    exact hobnn
  · rcases rampLimit_pos hpos hramp with ⟨-, d, hd, h0, -, -, -⟩ | ⟨-, d, hd, -, -, hle, -⟩
    · have h0q : (0 : ℚ) ≤ (d : ℚ) := by exact_mod_cast h0
      rw [hd]
      linarith
    · rw [hd]
      linarith

/-- A sequence of such calls from an initialized state with `out >= 0` ends with
`out >= 0`. -/
theorem runTicks_oneDir_nonneg (ticks : List Tick) :
    ∀ pid s'' : pid_t, pid.notFirst = true → 0 ≤ pid.out →
      (∀ t ∈ ticks, t.oneDirOnly = true ∧ t.revMotDuringCloseLoopEn = false ∧
        0 ≤ t.ext.MotControlProf_GetSlot.CloseLoopRampRate) →
      runTicks pid ticks = some s'' → 0 ≤ s''.out := by
  induction ticks with
  | nil =>
    intro pid s'' _ hout _ hrun
    simp only [runTicks, Option.some.injEq] at hrun
    rw [← hrun]
    exact hout
  | cons t ts ih =>
    intro pid s'' hnf hout hall hrun
    simp only [runTicks] at hrun
    obtain ⟨hone, hrev, hR⟩ := hall t (List.mem_cons_self t ts)
    cases hstep : PID_Calc1Ms t.ext { pid with target := t.target } t.pos
        t.revMotDuringCloseLoopEn t.oneDirOnly with
    | none => simp [hstep] at hrun
    | some pid' =>
      simp only [hstep] at hrun
      rw [hone, hrev] at hstep
      have hbase : 0 ≤ (if ({ pid with target := t.target } : pid_t).notFirst = false
          then t.ext.BDC_GetThrot else ({ pid with target := t.target } : pid_t).out) := by
        simp only [hnf, Bool.true_eq_false, if_false]
        exact hout
      exact ih pid' s'' (PID_Calc1Ms_eq_some hstep).2.1 (oneDir_tick_nonneg hR hbase hstep)
        (fun u hu => hall u (List.mem_cons_of_mem t hu)) hrun

theorem runTicks_second :
    runTicks rampAfter [secondTick] = some secondAfter := by
  simp only [runTicks, second_eval]

/-! ## The build and the defined behaviour -/

theorem far_eval :
    PID_Calc1Ms_build (specExternals rampSlot 0) farPid 0 false false = farAfter := by
  norm_num [PID_Calc1Ms_build, limiterInput, rampLimit_build, cvtInt32, directionStep, armStep,
    preRampStep, derivativeStep, integralStep, truncQ, absErr, wrap32, toUInt32, specExternals,
    PID_Mux_Unsigned, PID_Mux_Signed, scenarioSlot, scenarioPid, rampSlot, farPid, farAfter]

theorem far_oneDir_eval :
    PID_Calc1Ms_build (specExternals rampSlot 0) farPid 0 false true = farAfter := by
  norm_num [PID_Calc1Ms_build, limiterInput, rampLimit_build, cvtInt32, directionStep, armStep,
    preRampStep, derivativeStep, integralStep, truncQ, absErr, wrap32, toUInt32, specExternals,
    PID_Mux_Unsigned, PID_Mux_Signed, scenarioSlot, scenarioPid, rampSlot, farPid, farAfter]

theorem farCold_eval :
    PID_Calc1Ms_build (specExternals rampSlot 0) farColdPid 0 false false = farColdAfter := by
  norm_num [PID_Calc1Ms_build, limiterInput, rampLimit_build, cvtInt32, directionStep, armStep,
    preRampStep, derivativeStep, integralStep, truncQ, absErr, wrap32, toUInt32, specExternals,
    PID_Mux_Unsigned, PID_Mux_Signed, scenarioSlot, scenarioPid, rampSlot, farColdPid,
    farColdAfter]

/-! ## Claims -/

/-- C1, failing input: on the initialized state `farPid` (`out = 0`, setpoint `2^31 - 1`)
with `P = 2` and `CloseLoopRampRate = 10` the distance `outBeforRmp - out = 2^32 - 2` does
not fit the `int32_t` step `deltaUp`; the build leaves `out = -2^31`, a change of `2^31`,
far above the ramp rate. -/
theorem ramp_bound_broken_by_step_overflow :
    farPid.notFirst = true ∧
    0 < (specExternals rampSlot 0).MotControlProf_GetSlot.CloseLoopRampRate ∧
    PID_Calc1Ms_build (specExternals rampSlot 0) farPid 0 false false = farAfter ∧
    ¬ (|farAfter.out - farPid.out| ≤
      (specExternals rampSlot 0).MotControlProf_GetSlot.CloseLoopRampRate) := by
  refine ⟨rfl, ?_, far_eval, ?_⟩ <;>
    norm_num [specExternals, rampSlot, scenarioSlot, farAfter, farPid, scenarioPid, abs_le]

/-- Ramp bound within the defined behaviour: with a positive `CloseLoopRampRate` R, a call of
`PID_Calc1Ms` on an initialized state whose conversions to `int32_t` are all representable
changes `out` by at most R. -/
theorem ramp_bound (ext : Externals) (pid s' : pid_t) (pos : Int) (rev one : Bool)
    (hR : 0 < ext.MotControlProf_GetSlot.CloseLoopRampRate)
    (hnf : pid.notFirst = true)
    (h : PID_Calc1Ms ext pid pos rev one = some s') :
    |s'.out - pid.out| ≤ ext.MotControlProf_GetSlot.CloseLoopRampRate := by
  obtain ⟨-, -, -, -, -, -, -, hramp⟩ := PID_Calc1Ms_eq_some h
  simp only [hnf, Bool.true_eq_false, if_false] at hramp
  rcases rampLimit_pos hR hramp with ⟨-, d, hd, h0, hle, -, -⟩ | ⟨-, d, hd, h0, hle, -, -⟩
  · have h0q : (0 : ℚ) ≤ (d : ℚ) := by exact_mod_cast h0
    rw [hd, add_sub_cancel_left, abs_of_nonneg h0q]
    exact hle
  · have h0q : (0 : ℚ) ≤ (d : ℚ) := by exact_mod_cast h0
    rw [hd, sub_sub_cancel_left, abs_neg, abs_of_nonneg h0q]
    exact hle

theorem ramp_bound_witness :
    0 < (specExternals rampSlot 0).MotControlProf_GetSlot.CloseLoopRampRate ∧
    warmPid.notFirst = true ∧
    |warmAfter.out - warmPid.out| ≤
      (specExternals rampSlot 0).MotControlProf_GetSlot.CloseLoopRampRate :=
  have hR : 0 < (specExternals rampSlot 0).MotControlProf_GetSlot.CloseLoopRampRate := by
    norm_num [specExternals, rampSlot, scenarioSlot]
  ⟨hR, rfl, ramp_bound (specExternals rampSlot 0) warmPid warmAfter 0 false false hR rfl warm_eval⟩

/-- C2, zero-ramp bypass: when `CloseLoopRampRate` is 0, after `PID_Calc1Ms` the field `out`
equals the field `outBeforRmp`, whatever the state (cold or warm), the previous `out` and the
driver throttle were. -/
theorem zero_ramp_bypass (ext : Externals) (pid s' : pid_t) (pos : Int) (rev one : Bool)
    (hR : ext.MotControlProf_GetSlot.CloseLoopRampRate = 0)
    (h : PID_Calc1Ms ext pid pos rev one = some s') :
    s'.out = s'.outBeforRmp := by
  obtain ⟨-, -, -, -, -, -, -, hramp⟩ := PID_Calc1Ms_eq_some h
  rw [hR] at hramp
  exact rampLimit_zero hramp

theorem zero_ramp_bypass_witness :
    (specExternals scenarioSlot 0).MotControlProf_GetSlot.CloseLoopRampRate = 0 ∧
    scenarioAfterOneDir.out = scenarioAfterOneDir.outBeforRmp :=
  ⟨rfl, zero_ramp_bypass (specExternals scenarioSlot 0) scenarioPid scenarioAfterOneDir 0 false
    true rfl scenario_oneDir_eval⟩

/-- C3, counterexample: the scenario of the spec is a first scan with driver throttle 0 that
leaves `iAccum = 0` and `dErr = 0` but `out = 200`, not the throttle. -/
theorem cold_start_out_not_throttle :
    scenarioPid.notFirst = false ∧
    PID_Calc1Ms (specExternals scenarioSlot 0) scenarioPid 0 false false = some scenarioAfter ∧
    scenarioAfter.out ≠ (specExternals scenarioSlot 0).BDC_GetThrot := by
  refine ⟨rfl, scenario_eval, ?_⟩
  norm_num [scenarioAfter, specExternals]

/-- C3 as amended, cold start: on a call with `notFirst = 0` the state gets `iAccum = 0` and
`dErr = 0`, and the driver throttle is the baseline from which the rate limiter computes
`out`: `out` is the limiter's result for `outBeforRmp` and the throttle, not the throttle. -/
theorem cold_start (ext : Externals) (pid s' : pid_t) (pos : Int) (rev one : Bool)
    (hnf : pid.notFirst = false)
    (h : PID_Calc1Ms ext pid pos rev one = some s') :
    s'.iAccum = 0 ∧ s'.dErr = 0 ∧
      rampLimit ext.MotControlProf_GetSlot.CloseLoopRampRate s'.outBeforRmp ext.BDC_GetThrot
        = some s'.out := by
  obtain ⟨-, -, -, -, hi, hd, -, hramp⟩ := PID_Calc1Ms_eq_some h
  simp only [hnf, if_true, Bool.false_eq_true, if_false] at hi hd hramp
  exact ⟨hi, hd, hramp⟩

theorem cold_start_witness :
    scenarioPid.notFirst = false ∧
    rampAfter.iAccum = 0 ∧ rampAfter.dErr = 0 ∧
      rampLimit (specExternals rampSlot 0).MotControlProf_GetSlot.CloseLoopRampRate
        rampAfter.outBeforRmp (specExternals rampSlot 0).BDC_GetThrot = some rampAfter.out :=
  ⟨rfl, cold_start (specExternals rampSlot 0) scenarioPid rampAfter 0 false false rfl ramp_eval⟩

/-- C4, windup guard: with `IZone = T > 0`, a call whose error has magnitude at least T
(the stored `int32_t` error, or the difference `target - pos` itself) leaves `iAccum = 0`,
whatever the prior `iAccum` and whether the state is cold or warm; `|err| = T` and the most
negative 32-bit error are included. -/
theorem windup_guard (ext : Externals) (pid s' : pid_t) (pos : Int) (rev one : Bool)
    (hT : 0 < ext.MotControlProf_GetSlot.IZone)
    (h : PID_Calc1Ms ext pid pos rev one = some s')
    (hbig : (ext.MotControlProf_GetSlot.IZone : Int) ≤ |s'.err| ∨
      (ext.MotControlProf_GetSlot.IZone : ℚ) ≤ |pid.target - (pos : ℚ)|) :
    s'.iAccum = 0 := by
  obtain ⟨herr, -, -, -, hi, -, -, -⟩ := PID_Calc1Ms_eq_some h
  obtain ⟨htr, hlo, hhi⟩ := toInt32_eq_some herr
  have hmag : (ext.MotControlProf_GetSlot.IZone : Int) ≤ |s'.err| := by
    rcases hbig with hb | hb
    · exact hb
    · rw [htr]
      exact natCast_le_abs_truncQ hb
  have hu := toUInt32_absErr hlo hhi
  have hnot : ¬ (ext.MotControlProf_GetSlot.IZone = 0 ∨
      toUInt32 (absErr s'.err) < ext.MotControlProf_GetSlot.IZone) := by
    omega
  rw [hi, if_neg hnot]
  simp

theorem windup_guard_witness :
    0 < (specExternals zoneSlot 0).MotControlProf_GetSlot.IZone ∧
    woundPid.iAccum = 7 ∧ woundAfter.err = -2147483648 ∧ woundAfter.iAccum = 0 :=
  have hT : 0 < (specExternals zoneSlot 0).MotControlProf_GetSlot.IZone := by
    norm_num [specExternals, zoneSlot, scenarioSlot]
  ⟨hT, rfl, rfl,
    windup_guard (specExternals zoneSlot 0) woundPid woundAfter 0 false false hT wound_eval
      (Or.inl (by norm_num [specExternals, zoneSlot, scenarioSlot, woundAfter]))⟩

/-- C5, counterexample: the scenario tick run with `oneDirOnly` and
`revMotDuringCloseLoopEn` both set leaves `outBeforRmp = -200`, a negative value, for the
rate limiter to read. -/
theorem oneDir_clamp_negative_when_reversed :
    PID_Calc1Ms (specExternals scenarioSlot 0) scenarioPid 0 true true =
      some scenarioAfterBothFlags ∧
    scenarioAfterBothFlags.outBeforRmp < 0 := by
  refine ⟨scenario_bothFlags_eval, ?_⟩
  norm_num [scenarioAfterBothFlags]

/-- C5 as amended, one-direction clamp: when `oneDirOnly` is set, the `outBeforRmp` that the
rate limiter reads is `>= 0` if `revMotDuringCloseLoopEn` is clear and `<= 0` if it is set
(the clamp at zero comes before the inversion). -/
theorem oneDir_clamp (ext : Externals) (pid s' : pid_t) (pos : Int) (rev : Bool)
    (h : PID_Calc1Ms ext pid pos rev true = some s') :
    (rev = false → 0 ≤ s'.outBeforRmp) ∧ (rev = true → s'.outBeforRmp ≤ 0) := by
  obtain ⟨-, -, -, -, -, -, hob, -⟩ := PID_Calc1Ms_eq_some h
  rw [hob]
  cases rev
  · refine ⟨fun _ => ?_, fun hf => by simp at hf⟩
    simp only [Bool.false_eq_true, if_false, if_true]
    exact clamp_nonneg _
  · refine ⟨fun hf => by simp at hf, fun _ => ?_⟩
    simp only [if_true]
    exact neg_nonpos.mpr (clamp_nonneg _)

theorem oneDir_clamp_witness :
    (true = false → 0 ≤ scenarioAfterBothFlags.outBeforRmp) ∧
    (true = true → scenarioAfterBothFlags.outBeforRmp ≤ 0) :=
  oneDir_clamp (specExternals scenarioSlot 0) scenarioPid scenarioAfterBothFlags 0 true
    scenario_bothFlags_eval

/-- C6, sign consistency: for the same state, profile, process variable, throttle and
`oneDirOnly`, the `outBeforRmp` left by `PID_Calc1Ms` with `revMotDuringCloseLoopEn` set is
the exact negation of the one left with `revMotDuringCloseLoopEn` clear. -/
theorem sign_consistency (ext : Externals) (pid sRev sFwd : pid_t) (pos : Int) (one : Bool)
    (hRev : PID_Calc1Ms ext pid pos true one = some sRev)
    (hFwd : PID_Calc1Ms ext pid pos false one = some sFwd) :
    sRev.outBeforRmp = -sFwd.outBeforRmp := by
  obtain ⟨he1, -, -, -, hi1, hd1, hob1, -⟩ := PID_Calc1Ms_eq_some hRev
  obtain ⟨he2, -, -, -, hi2, hd2, hob2, -⟩ := PID_Calc1Ms_eq_some hFwd
  have herr : sRev.err = sFwd.err := by
    rw [he1] at he2
    exact Option.some.inj he2
  rw [herr] at hi1 hd1 hob1
  have hi : sRev.iAccum = sFwd.iAccum := hi1.trans hi2.symm
  have hd : sRev.dErr = sFwd.dErr := hd1.trans hd2.symm
  rw [hi, hd] at hob1
  rw [hob1, hob2]
  simp

theorem sign_consistency_witness :
    scenarioAfterBothFlags.outBeforRmp = -scenarioAfterOneDir.outBeforRmp :=
  sign_consistency (specExternals scenarioSlot 0) scenarioPid scenarioAfterBothFlags
    scenarioAfterOneDir 0 true scenario_bothFlags_eval scenario_oneDir_eval

/-- C7, the one-direction anomaly: there are an initialized state with `out < 0`, a profile
with `CloseLoopRampRate > 0` and a process variable for which `PID_Calc1Ms`, called with
`oneDirOnly` set and `revMotDuringCloseLoopEn` clear, leaves `out < 0` although the clamped
`outBeforRmp` is `>= 0`: the limiter moves `out` toward it without reaching zero. -/
theorem oneDir_anomaly :
    ∃ (ext : Externals) (pid s' : pid_t) (pos : Int),
      pid.notFirst = true ∧ pid.out < 0 ∧
      0 < ext.MotControlProf_GetSlot.CloseLoopRampRate ∧
      PID_Calc1Ms ext pid pos false true = some s' ∧
      0 ≤ s'.outBeforRmp ∧ pid.out < s'.out ∧ s'.out < 0 := by
  refine ⟨specExternals rampSlot 0, negOutPid, negOutAfter, 0, rfl, ?_, ?_, negOut_eval, ?_, ?_, ?_⟩
  · norm_num [negOutPid, scenarioPid]
  · norm_num [specExternals, rampSlot, scenarioSlot]
  · norm_num [negOutAfter]
  · norm_num [negOutPid, scenarioPid, negOutAfter]
  · norm_num [negOutAfter]

/-- C8, PID+F sum, with the two multipliers as the spec describes them: with both flags clear
`PID_Calc1Ms` leaves `outBeforRmp = P*err + I*iAccum + D*dErr + F*target` for the `err`,
`iAccum` and `dErr` stored by the same tick, also when `iAccum = 0` or `I = 0`; and the
pre-ramp block with the guard on the I component equals the block without the guard. -/
theorem pidf_sum (slot : MotorControlProfile_t) (throt : ℚ) (pid s' : pid_t) (pos : Int)
    (h : PID_Calc1Ms (specExternals slot throt) pid pos false false = some s') :
    s'.outBeforRmp =
        slot.P * (s'.err : ℚ) + slot.I * s'.iAccum + slot.D * s'.dErr + slot.F * pid.target ∧
    ∀ (err : Int) (p : pid_t),
      preRampStep (specExternals slot throt) err p =
        preRampStep_noSkip (specExternals slot throt) err p := by
  constructor
  · obtain ⟨-, -, -, -, -, -, hob, -⟩ := PID_Calc1Ms_eq_some h
    rw [hob]
    simp only [specExternals, PID_Mux_Unsigned, PID_Mux_Signed, Bool.false_eq_true, if_false]
    split_ifs with hg
    · ring
    · have hz : s'.iAccum * slot.I = 0 := by
        by_contra hne
        exact hg ⟨left_ne_zero_of_mul hne, right_ne_zero_of_mul hne⟩
      linear_combination -hz
  · intro err p
    unfold preRampStep preRampStep_noSkip
    simp only [specExternals, PID_Mux_Unsigned]
    split_ifs with hg
    · rfl
    · have hz : p.iAccum * slot.I = 0 := by
        by_contra hne
        exact hg ⟨left_ne_zero_of_mul hne, right_ne_zero_of_mul hne⟩
      simp [hz]

theorem pidf_sum_witness :
    PID_Calc1Ms (specExternals scenarioSlot 0) scenarioPid 0 false false = some scenarioAfter ∧
    scenarioAfter.err = 100 ∧ scenarioAfter.outBeforRmp = 200 ∧ scenarioAfter.out = 200 ∧
    scenarioAfter.outBeforRmp =
      scenarioSlot.P * (scenarioAfter.err : ℚ) + scenarioSlot.I * scenarioAfter.iAccum
        + scenarioSlot.D * scenarioAfter.dErr + scenarioSlot.F * scenarioPid.target :=
  ⟨scenario_eval, rfl, rfl, rfl,
    (pidf_sum scenarioSlot 0 scenarioPid scenarioAfter 0 scenario_eval).1⟩

/-- C9, failing input: on the first scan of `farColdPid` with driver throttle 0, `P = 2` and
`CloseLoopRampRate = 10`, `outBeforRmp = 2^32 - 2 >= th + R`, yet the build leaves
`out = -2^31`, not `th + R = 10`: the distance does not fit the `int32_t` step. -/
theorem cold_ramp_broken_by_step_overflow :
    farColdPid.notFirst = false ∧
    0 < (specExternals rampSlot 0).MotControlProf_GetSlot.CloseLoopRampRate ∧
    PID_Calc1Ms_build (specExternals rampSlot 0) farColdPid 0 false false = farColdAfter ∧
    farColdAfter.outBeforRmp ≥ (specExternals rampSlot 0).BDC_GetThrot +
      (specExternals rampSlot 0).MotControlProf_GetSlot.CloseLoopRampRate ∧
    farColdAfter.out ≠ (specExternals rampSlot 0).BDC_GetThrot +
      (specExternals rampSlot 0).MotControlProf_GetSlot.CloseLoopRampRate := by
  refine ⟨rfl, ?_, farCold_eval, ?_, ?_⟩ <;>
    norm_num [specExternals, rampSlot, scenarioSlot, farColdAfter]

/-- A second input on which the cold-start step is not R: with throttle 0 and the fractional
ramp rate `R = 5/2`, `outBeforRmp = 200 >= 0 + R`, yet `out = 2`: the step is held in an
`int32_t`. -/
theorem cold_ramp_fractional_rate :
    scenarioPid.notFirst = false ∧
    0 < (specExternals halfRampSlot 0).MotControlProf_GetSlot.CloseLoopRampRate ∧
    PID_Calc1Ms (specExternals halfRampSlot 0) scenarioPid 0 false false = some halfRampAfter ∧
    halfRampAfter.outBeforRmp ≥
      (specExternals halfRampSlot 0).BDC_GetThrot +
        (specExternals halfRampSlot 0).MotControlProf_GetSlot.CloseLoopRampRate ∧
    halfRampAfter.out ≠
      (specExternals halfRampSlot 0).BDC_GetThrot +
        (specExternals halfRampSlot 0).MotControlProf_GetSlot.CloseLoopRampRate := by
  refine ⟨rfl, ?_, halfRamp_eval, ?_, ?_⟩ <;>
    norm_num [specExternals, halfRampSlot, scenarioSlot, halfRampAfter, scenarioAfter]

/-- Cold-start ramp baseline within the defined behaviour: on a tick with `notFirst = 0` and
`CloseLoopRampRate = R > 0` the limiter compares against the driver throttle `th`, and steps
by R truncated to a whole number: if `outBeforRmp >= th + R` then `out = th + trunc R`, if
`outBeforRmp <= th - R` then `out = th - trunc R`; for a whole number R these are `th + R`
and `th - R`. -/
theorem cold_ramp_baseline (ext : Externals) (pid s' : pid_t) (pos : Int) (rev one : Bool)
    (hnf : pid.notFirst = false)
    (hR : 0 < ext.MotControlProf_GetSlot.CloseLoopRampRate)
    (h : PID_Calc1Ms ext pid pos rev one = some s') :
    (ext.BDC_GetThrot + ext.MotControlProf_GetSlot.CloseLoopRampRate ≤ s'.outBeforRmp →
      s'.out = ext.BDC_GetThrot + (truncQ ext.MotControlProf_GetSlot.CloseLoopRampRate : ℚ)) ∧
    (s'.outBeforRmp ≤ ext.BDC_GetThrot - ext.MotControlProf_GetSlot.CloseLoopRampRate →
      s'.out = ext.BDC_GetThrot - (truncQ ext.MotControlProf_GetSlot.CloseLoopRampRate : ℚ)) ∧
    ((truncQ ext.MotControlProf_GetSlot.CloseLoopRampRate : ℚ)
        = ext.MotControlProf_GetSlot.CloseLoopRampRate →
      (ext.BDC_GetThrot + ext.MotControlProf_GetSlot.CloseLoopRampRate ≤ s'.outBeforRmp →
        s'.out = ext.BDC_GetThrot + ext.MotControlProf_GetSlot.CloseLoopRampRate) ∧
      (s'.outBeforRmp ≤ ext.BDC_GetThrot - ext.MotControlProf_GetSlot.CloseLoopRampRate →
        s'.out = ext.BDC_GetThrot - ext.MotControlProf_GetSlot.CloseLoopRampRate)) := by
  obtain ⟨-, -, -, -, -, -, -, hramp⟩ := PID_Calc1Ms_eq_some h
  simp only [hnf, if_true] at hramp
  have hup : ext.BDC_GetThrot + ext.MotControlProf_GetSlot.CloseLoopRampRate ≤ s'.outBeforRmp →
      s'.out = ext.BDC_GetThrot + (truncQ ext.MotControlProf_GetSlot.CloseLoopRampRate : ℚ) := by
    intro hfar
    rw [truncQ_of_nonneg hR.le]
    rcases rampLimit_pos hR hramp with ⟨-, d, hd, -, -, -, hmin⟩ | ⟨hlt, -⟩
    · have hfl : ⌊ext.MotControlProf_GetSlot.CloseLoopRampRate⌋ ≤
          ⌊s'.outBeforRmp - ext.BDC_GetThrot⌋ := Int.floor_mono (by linarith)
      rw [hd, hmin, min_eq_right hfl]
    · linarith
  have hdn : s'.outBeforRmp ≤ ext.BDC_GetThrot - ext.MotControlProf_GetSlot.CloseLoopRampRate →
      s'.out = ext.BDC_GetThrot - (truncQ ext.MotControlProf_GetSlot.CloseLoopRampRate : ℚ) := by
    intro hfar
    rw [truncQ_of_nonneg hR.le]
    rcases rampLimit_pos hR hramp with ⟨hle, -⟩ | ⟨-, d, hd, -, -, -, hmin⟩
    · linarith
    · have hfl : ⌊ext.MotControlProf_GetSlot.CloseLoopRampRate⌋ ≤
          ⌊ext.BDC_GetThrot - s'.outBeforRmp⌋ := Int.floor_mono (by linarith)
      rw [hd, hmin, min_eq_right hfl]
  refine ⟨hup, hdn, fun hint => ⟨fun hfar => ?_, fun hfar => ?_⟩⟩
  · rw [hup hfar, hint]
  · rw [hdn hfar, hint]

theorem cold_ramp_baseline_witness :
    rampAfter.out = 10 ∧
    rampAfter.out = (specExternals rampSlot 0).BDC_GetThrot +
      (specExternals rampSlot 0).MotControlProf_GetSlot.CloseLoopRampRate :=
  have hR : 0 < (specExternals rampSlot 0).MotControlProf_GetSlot.CloseLoopRampRate := by
    norm_num [specExternals, rampSlot, scenarioSlot]
  ⟨rfl,
    ((cold_ramp_baseline (specExternals rampSlot 0) scenarioPid rampAfter 0 false false rfl hR
      ramp_eval).2.2
      (by norm_num [specExternals, rampSlot, scenarioSlot, truncQ])).1
      (by norm_num [specExternals, rampSlot, scenarioSlot, rampAfter, scenarioAfter])⟩

/-- C10, counterexample: with `IZone = 10`, a warm tick whose error is 5 takes `iAccum` from
8 to 13: the accumulator exceeds IZone and is not reset. -/
theorem iAccum_exceeds_izone :
    0 < (specExternals zone10Slot 0).MotControlProf_GetSlot.IZone ∧
    PID_Calc1Ms (specExternals zone10Slot 0) accPid 0 false false = some accAfter ∧
    ¬ (|accAfter.iAccum| ≤ ((specExternals zone10Slot 0).MotControlProf_GetSlot.IZone : ℚ)) := by
  refine ⟨?_, acc_eval, ?_⟩ <;>
    norm_num [specExternals, zone10Slot, scenarioSlot, accAfter]

/-- C10 as amended, integral zone: with `IZone = T > 0` it is the magnitude of the tick's
error, not `iAccum`, that is compared with IZone: after every call of `PID_Calc1Ms` either
`iAccum = 0`, or `|err| < T` and `iAccum` is the previous `iAccum` plus `err` (so it moved by
less than T, and may exceed T). -/
theorem izone_resets_on_error (ext : Externals) (pid s' : pid_t) (pos : Int) (rev one : Bool)
    (hT : 0 < ext.MotControlProf_GetSlot.IZone)
    (h : PID_Calc1Ms ext pid pos rev one = some s') :
    s'.iAccum = 0 ∨
      (|s'.err| < (ext.MotControlProf_GetSlot.IZone : Int) ∧
        s'.iAccum = pid.iAccum + (s'.err : ℚ) ∧
        |s'.iAccum - pid.iAccum| < (ext.MotControlProf_GetSlot.IZone : ℚ)) := by
  obtain ⟨herr, -, -, -, hi, -, -, -⟩ := PID_Calc1Ms_eq_some h
  obtain ⟨-, hlo, hhi⟩ := toInt32_eq_some herr
  have hu := toUInt32_absErr hlo hhi
  split_ifs at hi with hnf hzone
  · exact Or.inl hi
  · right
    have hlt : |s'.err| < (ext.MotControlProf_GetSlot.IZone : Int) := by omega
    refine ⟨hlt, hi, ?_⟩
    rw [hi, add_sub_cancel_left]
    exact_mod_cast hlt
  · exact Or.inl hi

theorem izone_resets_on_error_witness :
    accAfter.iAccum = 0 ∨
      (|accAfter.err| < ((specExternals zone10Slot 0).MotControlProf_GetSlot.IZone : Int) ∧
        accAfter.iAccum = accPid.iAccum + (accAfter.err : ℚ) ∧
        |accAfter.iAccum - accPid.iAccum| <
          ((specExternals zone10Slot 0).MotControlProf_GetSlot.IZone : ℚ)) :=
  izone_resets_on_error (specExternals zone10Slot 0) accPid accAfter 0 false false
    (by norm_num [specExternals, zone10Slot, scenarioSlot]) acc_eval

/-- Outside the representable range the C standard defines no result: with the setpoint `2^31`
and the process variable 0 the conversion `toInt32` of `target - pos` has no value, and
`PID_Calc1Ms`, the defined behaviour, yields no state. -/
theorem not_total_at_huge_target :
    toInt32 (hugePid.target - ((0 : Int) : ℚ)) = none ∧
    PID_Calc1Ms (specExternals scenarioSlot 0) hugePid 0 false false = none := by
  have hconv : toInt32 (hugePid.target - ((0 : Int) : ℚ)) = none := by
    norm_num [toInt32, truncQ, hugePid, scenarioPid]
  refine ⟨hconv, ?_⟩
  unfold PID_Calc1Ms
  simp only [hconv]

/-- The defined behaviour covers the representable range: `PID_Calc1Ms` yields a state whenever
`target - pos` lies strictly between `-2^31 - 1` and `2^31` and either `CloseLoopRampRate`
is 0, or it is positive and the distance between the `outBeforRmp` handed to the limiter and
the limiter's baseline is below `2^31`. -/
theorem defined_on_int32_range (ext : Externals) (pid : pid_t) (pos : Int) (rev one : Bool)
    (hlo : -2147483649 < pid.target - (pos : ℚ))
    (hhi : pid.target - (pos : ℚ) < 2147483648)
    (hR : ext.MotControlProf_GetSlot.CloseLoopRampRate = 0 ∨
      (0 < ext.MotControlProf_GetSlot.CloseLoopRampRate ∧
        ∀ err : Int, toInt32 (pid.target - (pos : ℚ)) = some err →
          |(limiterInput ext pid err rev one).outBeforRmp
              - (limiterInput ext pid err rev one).out| < 2147483648)) :
    ∃ s' : pid_t, PID_Calc1Ms ext pid pos rev one = some s' := by
  obtain ⟨err, herr⟩ := toInt32_isSome_of_range hlo hhi
  rw [PID_Calc1Ms_eq_rampStep rev one herr]
  unfold rampStep
  rcases hR with h0 | ⟨hpos, hdist⟩
  · rw [h0]
    unfold rampLimit
    simp
  · obtain ⟨o', ho'⟩ := rampLimit_isSome hpos (hdist err herr)
    simp only [ho']
    exact ⟨_, rfl⟩

theorem defined_on_int32_range_witness :
    ∃ s' : pid_t, PID_Calc1Ms (specExternals scenarioSlot 0) woundPid 0 false false = some s' :=
  defined_on_int32_range (specExternals scenarioSlot 0) woundPid 0 false false
    (by norm_num [woundPid, scenarioPid]) (by norm_num [woundPid, scenarioPid]) (Or.inl rfl)

/-- C12, integral accumulation: on an initialized state with accumulator `a`, a tick with
error `err` for which `IZone = 0` or `|err| < IZone` leaves `iAccum = a + err`; and after any
tick, first scan included, `iAccum` is either `a + err` or exactly 0. -/
theorem integral_accumulation (ext : Externals) (pid s' : pid_t) (pos : Int) (rev one : Bool)
    (h : PID_Calc1Ms ext pid pos rev one = some s') :
    (pid.notFirst = true →
      (ext.MotControlProf_GetSlot.IZone = 0 ∨
        |s'.err| < (ext.MotControlProf_GetSlot.IZone : Int)) →
      s'.iAccum = pid.iAccum + (s'.err : ℚ)) ∧
    (s'.iAccum = pid.iAccum + (s'.err : ℚ) ∨ s'.iAccum = 0) := by
  obtain ⟨herr, -, -, -, hi, -, -, -⟩ := PID_Calc1Ms_eq_some h
  obtain ⟨-, hlo, hhi⟩ := toInt32_eq_some herr
  have hu := toUInt32_absErr hlo hhi
  constructor
  · intro hnf hzone
    have hcond : ext.MotControlProf_GetSlot.IZone = 0 ∨
        toUInt32 (absErr s'.err) < ext.MotControlProf_GetSlot.IZone := by omega
    rw [hi, if_neg (by simp [hnf]), if_pos hcond]
  · split_ifs at hi with hnf hzone
    · exact Or.inr hi
    · exact Or.inl hi
    · exact Or.inr hi

theorem integral_accumulation_witness :
    (accPid.notFirst = true →
      ((specExternals zone10Slot 0).MotControlProf_GetSlot.IZone = 0 ∨
        |accAfter.err| < ((specExternals zone10Slot 0).MotControlProf_GetSlot.IZone : Int)) →
      accAfter.iAccum = accPid.iAccum + (accAfter.err : ℚ)) ∧
    (accAfter.iAccum = accPid.iAccum + (accAfter.err : ℚ) ∨ accAfter.iAccum = 0) :=
  integral_accumulation (specExternals zone10Slot 0) accPid accAfter 0 false false acc_eval

/-- C13, failing input: on a warm state with `out = 0`, `CloseLoopRampRate = 10` and the gain
`P = 1/2`, an error of 1 gives `outBeforRmp = 1/2`; the distance 1/2 is within the ramp
rate, yet `out` stays 0 and is neither `0 + min (1/2) 10` nor `outBeforRmp`: the step
`deltaUp` is an `int32_t` and truncates to 0. -/
theorem ramp_step_fractional_distance :
    unitPid.notFirst = true ∧
    0 < (specExternals halfGainSlot 0).MotControlProf_GetSlot.CloseLoopRampRate ∧
    PID_Calc1Ms (specExternals halfGainSlot 0) unitPid 0 false false = some unitAfter ∧
    unitAfter.outBeforRmp ≥ unitPid.out ∧
    |unitAfter.outBeforRmp - unitPid.out| ≤
      (specExternals halfGainSlot 0).MotControlProf_GetSlot.CloseLoopRampRate ∧
    unitAfter.out ≠ unitPid.out + min (unitAfter.outBeforRmp - unitPid.out)
      (specExternals halfGainSlot 0).MotControlProf_GetSlot.CloseLoopRampRate ∧
    unitAfter.out ≠ unitAfter.outBeforRmp := by
  refine ⟨rfl, ?_, unit_eval, ?_, ?_, ?_, ?_⟩ <;>
    norm_num [specExternals, halfGainSlot, scenarioSlot, unitAfter, unitPid, scenarioPid,
      abs_le]

/-- The limiter's step within the defined behaviour: for `CloseLoopRampRate = R > 0` and
limiter baseline `o` (the previous `out`, or the driver throttle on the first scan),
`out = o + min (trunc (outBeforRmp - o)) (trunc R)` when `outBeforRmp >= o` and
`out = o - min (trunc (o - outBeforRmp)) (trunc R)` otherwise, `trunc` being truncation to a
whole number; whenever `|outBeforRmp - o| <= R` and `outBeforRmp - o` is a whole number, the
new `out` equals `outBeforRmp` exactly. -/
theorem ramp_step (ext : Externals) (pid s' : pid_t) (pos : Int) (rev one : Bool) (o : ℚ)
    (hR : 0 < ext.MotControlProf_GetSlot.CloseLoopRampRate)
    (ho : o = if pid.notFirst = false then ext.BDC_GetThrot else pid.out)
    (h : PID_Calc1Ms ext pid pos rev one = some s') :
    (s'.outBeforRmp ≥ o →
      s'.out = o + ((min (truncQ (s'.outBeforRmp - o))
        (truncQ ext.MotControlProf_GetSlot.CloseLoopRampRate) : Int) : ℚ)) ∧
    (s'.outBeforRmp < o →
      s'.out = o - ((min (truncQ (o - s'.outBeforRmp))
        (truncQ ext.MotControlProf_GetSlot.CloseLoopRampRate) : Int) : ℚ)) ∧
    (|s'.outBeforRmp - o| ≤ ext.MotControlProf_GetSlot.CloseLoopRampRate →
      (∃ n : Int, s'.outBeforRmp - o = (n : ℚ)) → s'.out = s'.outBeforRmp) := by
  obtain ⟨-, -, -, -, -, -, -, hramp⟩ := PID_Calc1Ms_eq_some h
  rw [← ho] at hramp
  have hup : s'.outBeforRmp ≥ o →
      s'.out = o + ((min (truncQ (s'.outBeforRmp - o))
        (truncQ ext.MotControlProf_GetSlot.CloseLoopRampRate) : Int) : ℚ) := by
    intro hge
    rw [truncQ_of_nonneg (sub_nonneg.mpr hge), truncQ_of_nonneg hR.le]
    rcases rampLimit_pos hR hramp with ⟨-, d, hd, -, -, -, hmin⟩ | ⟨hlt, -⟩
    · rw [hd, hmin]
    · exact absurd hge (not_le.mpr hlt)
  have hdn : s'.outBeforRmp < o →
      s'.out = o - ((min (truncQ (o - s'.outBeforRmp))
        (truncQ ext.MotControlProf_GetSlot.CloseLoopRampRate) : Int) : ℚ) := by
    intro hlt
    rw [truncQ_of_nonneg (sub_nonneg.mpr hlt.le), truncQ_of_nonneg hR.le]
    rcases rampLimit_pos hR hramp with ⟨hle, -⟩ | ⟨-, d, hd, -, -, -, hmin⟩
    · exact absurd hlt (not_lt.mpr hle)
    · rw [hd, hmin]
  refine ⟨hup, hdn, ?_⟩
  rintro hclose ⟨n, hn⟩
  have hnR : |(n : ℚ)| ≤ ext.MotControlProf_GetSlot.CloseLoopRampRate := hn ▸ hclose
  by_cases hge : s'.outBeforRmp ≥ o
  · have hfl : truncQ (s'.outBeforRmp - o) = n := by rw [hn]; exact truncQ_intCast n
    have hle : n ≤ truncQ ext.MotControlProf_GetSlot.CloseLoopRampRate := by
      rw [truncQ_of_nonneg hR.le]
      exact Int.le_floor.mpr (le_trans (le_abs_self _) hnR)
    rw [hup hge, hfl, min_eq_left hle, ← hn]
    ring
  · have hlt : s'.outBeforRmp < o := not_le.mp hge
    have hn' : o - s'.outBeforRmp = ((-n : Int) : ℚ) := by push_cast; linarith
    have hfl : truncQ (o - s'.outBeforRmp) = -n := by rw [hn']; exact truncQ_intCast (-n)
    have hle : -n ≤ truncQ ext.MotControlProf_GetSlot.CloseLoopRampRate := by
      rw [truncQ_of_nonneg hR.le]
      exact Int.le_floor.mpr (by push_cast; exact le_trans (neg_le_abs _) hnR)
    rw [hdn hlt, hfl, min_eq_left hle]
    push_cast
    linarith

theorem ramp_step_witness :
    warmAfter.out = warmPid.out + ((min (truncQ (warmAfter.outBeforRmp - warmPid.out))
        (truncQ (specExternals rampSlot 0).MotControlProf_GetSlot.CloseLoopRampRate) : Int) : ℚ) :=
  (ramp_step (specExternals rampSlot 0) warmPid warmAfter 0 false false warmPid.out
    (by norm_num [specExternals, rampSlot, scenarioSlot]) rfl warm_eval).1
    (by norm_num [warmAfter, warmPid, scenarioPid])

/-- The stored error within the defined behaviour: the `int32_t` field `err` equals
`target - pos` truncated toward zero, and `target - pos` itself when the setpoint is a whole
number. -/
theorem stored_error (ext : Externals) (pid s' : pid_t) (pos : Int) (rev one : Bool)
    (h : PID_Calc1Ms ext pid pos rev one = some s') :
    s'.err = truncQ (pid.target - (pos : ℚ)) ∧
    ∀ n : Int, pid.target = (n : ℚ) → (s'.err : ℚ) = pid.target - (pos : ℚ) := by
  obtain ⟨herr, -⟩ := PID_Calc1Ms_eq_some h
  obtain ⟨htr, -⟩ := toInt32_eq_some herr
  refine ⟨htr, fun n hn => ?_⟩
  rw [htr, hn, ← Int.cast_sub, truncQ_intCast]

theorem stored_error_witness :
    scenarioAfter.err = truncQ (scenarioPid.target - ((0 : Int) : ℚ)) ∧
    ∀ n : Int, scenarioPid.target = (n : ℚ) →
      (scenarioAfter.err : ℚ) = scenarioPid.target - ((0 : Int) : ℚ) :=
  stored_error (specExternals scenarioSlot 0) scenarioPid scenarioAfter 0 false false
    scenario_eval

/-- C15, unconditional commit: after every call of `PID_Calc1Ms`, from a first-scan state or
an initialized one, `notFirst = 1` and `prevErr` equals the `err` stored by that call; and
`notFirst` is still 1 after any further sequence of calls. -/
theorem commit_unconditional (ext : Externals) (pid s' : pid_t) (pos : Int) (rev one : Bool)
    (h : PID_Calc1Ms ext pid pos rev one = some s') :
    s'.notFirst = true ∧ s'.prevErr = (s'.err : ℚ) ∧
    ∀ (ticks : List Tick) (s'' : pid_t), runTicks s' ticks = some s'' →
      s''.notFirst = true := by
  obtain ⟨-, hnf, -, hprev, -⟩ := PID_Calc1Ms_eq_some h
  exact ⟨hnf, hprev, fun ticks s'' hrun => runTicks_notFirst ticks s' s'' hnf hrun⟩

theorem commit_unconditional_witness :
    scenarioPid.notFirst = false ∧
    rampAfter.notFirst = true ∧ rampAfter.prevErr = (rampAfter.err : ℚ) ∧
    secondAfter.notFirst = true :=
  have hc := commit_unconditional (specExternals rampSlot 0) scenarioPid rampAfter 0 false
    false ramp_eval
  ⟨rfl, hc.1, hc.2.1, hc.2.2 [secondTick] secondAfter runTicks_second⟩

/-- C16, derivative over consecutive ticks: for two successive calls of `PID_Calc1Ms` on one
PID structure, the caller writing any setpoint in between and passing any process variables,
flags and profiles, `dErr` after the second call is the error stored by the second call
minus the error stored by the first. -/
theorem derivative_consecutive (ext1 ext2 : Externals) (pid s1 s2 : pid_t) (pos1 pos2 : Int)
    (rev1 one1 rev2 one2 : Bool) (target2 : ℚ)
    (h1 : PID_Calc1Ms ext1 pid pos1 rev1 one1 = some s1)
    (h2 : PID_Calc1Ms ext2 { s1 with target := target2 } pos2 rev2 one2 = some s2) :
    s2.dErr = (s2.err : ℚ) - (s1.err : ℚ) := by
  obtain ⟨-, hnf, -, hprev, -⟩ := PID_Calc1Ms_eq_some h1
  obtain ⟨-, -, -, -, -, hd, -⟩ := PID_Calc1Ms_eq_some h2
  simp only [hnf, if_true, hprev] at hd
  exact hd

theorem derivative_consecutive_witness :
    secondAfter.dErr = (secondAfter.err : ℚ) - (rampAfter.err : ℚ) :=
  derivative_consecutive (specExternals rampSlot 0) secondTick.ext scenarioPid rampAfter
    secondAfter 0 secondTick.pos false false secondTick.revMotDuringCloseLoopEn
    secondTick.oneDirOnly secondTick.target ramp_eval second_eval

/-- C17, failing input: at `farPid` with `CloseLoopRampRate = 10` the baseline is 0 and
`outBeforRmp = 2^32 - 2`, and the build leaves `out = -2^31`, below both: `out` has moved
away from `outBeforRmp`, out of the interval between the baseline and `outBeforRmp`. -/
theorem overshoot_by_step_overflow :
    0 < (specExternals rampSlot 0).MotControlProf_GetSlot.CloseLoopRampRate ∧
    PID_Calc1Ms_build (specExternals rampSlot 0) farPid 0 false false = farAfter ∧
    farPid.out ≤ farAfter.outBeforRmp ∧
    farAfter.out < min farPid.out farAfter.outBeforRmp := by
  refine ⟨?_, far_eval, ?_, ?_⟩ <;>
    norm_num [specExternals, rampSlot, scenarioSlot, farAfter, farPid, scenarioPid]

/-- No overshoot within the defined behaviour: for `CloseLoopRampRate > 0` and a call whose
conversions to `int32_t` are all representable, `out` lies in the closed interval between the
limiter's baseline `o` and `outBeforRmp`. -/
theorem no_overshoot (ext : Externals) (pid s' : pid_t) (pos : Int) (rev one : Bool) (o : ℚ)
    (hR : 0 < ext.MotControlProf_GetSlot.CloseLoopRampRate)
    (ho : o = if pid.notFirst = false then ext.BDC_GetThrot else pid.out)
    (h : PID_Calc1Ms ext pid pos rev one = some s') :
    min o s'.outBeforRmp ≤ s'.out ∧ s'.out ≤ max o s'.outBeforRmp ∧
    (o ≤ s'.outBeforRmp → o ≤ s'.out ∧ s'.out ≤ s'.outBeforRmp) ∧
    (s'.outBeforRmp < o → s'.outBeforRmp ≤ s'.out ∧ s'.out ≤ o) := by
  obtain ⟨-, -, -, -, -, -, -, hramp⟩ := PID_Calc1Ms_eq_some h
  rw [← ho] at hramp
  rcases rampLimit_pos hR hramp with ⟨hle, d, hd, h0, -, hdist, -⟩ | ⟨hlt, d, hd, h0, -, hdist, -⟩
  · have h0q : (0 : ℚ) ≤ (d : ℚ) := by exact_mod_cast h0
    have hlo : o ≤ s'.out := by rw [hd]; linarith
    have hhi : s'.out ≤ s'.outBeforRmp := by rw [hd]; linarith
    refine ⟨le_trans (min_le_left _ _) hlo, le_trans hhi (le_max_right _ _),
      fun _ => ⟨hlo, hhi⟩, fun hlt => absurd hle (not_le.mpr hlt)⟩
  · have h0q : (0 : ℚ) ≤ (d : ℚ) := by exact_mod_cast h0
    have hlo : s'.outBeforRmp ≤ s'.out := by rw [hd]; linarith
    have hhi : s'.out ≤ o := by rw [hd]; linarith
    refine ⟨le_trans (min_le_right _ _) hlo, le_trans hhi (le_max_left _ _),
      fun hle => absurd hlt (not_lt.mpr hle), fun _ => ⟨hlo, hhi⟩⟩

theorem no_overshoot_witness :
    min (-100 : ℚ) negOutAfter.outBeforRmp ≤ negOutAfter.out ∧
    negOutAfter.out ≤ max (-100 : ℚ) negOutAfter.outBeforRmp :=
  have hw := no_overshoot (specExternals rampSlot 0) negOutPid negOutAfter 0 false true (-100)
    (by norm_num [specExternals, rampSlot, scenarioSlot]) rfl negOut_eval
  ⟨hw.1, hw.2.1⟩

/-- C18, failing input: at `farPid` with `oneDirOnly` set, `revMotDuringCloseLoopEn` clear,
`CloseLoopRampRate = 10` and the nonnegative baseline `out = 0`, the build leaves
`out = -2^31 < 0`. -/
theorem oneDir_negative_by_step_overflow :
    farPid.notFirst = true ∧ 0 ≤ farPid.out ∧
    0 ≤ (specExternals rampSlot 0).MotControlProf_GetSlot.CloseLoopRampRate ∧
    PID_Calc1Ms_build (specExternals rampSlot 0) farPid 0 false true = farAfter ∧
    farAfter.out < 0 := by
  refine ⟨rfl, ?_, ?_, far_oneDir_eval, ?_⟩ <;>
    norm_num [specExternals, rampSlot, scenarioSlot, farAfter, farPid, scenarioPid]

/-- A second input on which one-direction mode yields a negative `out`: under the negative ramp
rate `-5`, a warm tick from `out = 0` with `outBeforRmp = 0` leaves `out = -5`. -/
theorem oneDir_negative_under_negative_rate :
    restPid.notFirst = true ∧ 0 ≤ restPid.out ∧
    PID_Calc1Ms (specExternals negRampSlot 0) restPid 0 false true = some restAfter ∧
    restAfter.out < 0 := by
  refine ⟨rfl, ?_, rest_negRamp_eval, ?_⟩
  · norm_num [restPid, scenarioPid]
  · norm_num [restAfter]

/-- Non-negative output in one-direction mode within the defined behaviour: with `oneDirOnly`
set, `revMotDuringCloseLoopEn` clear, `CloseLoopRampRate >= 0` and all conversions to
`int32_t` representable, a baseline `>= 0` gives `out >= 0` after `PID_Calc1Ms` and over any
further sequence of such ticks. -/
theorem oneDir_nonneg_preserved (ext : Externals) (pid s' : pid_t) (pos : Int)
    (hR : 0 ≤ ext.MotControlProf_GetSlot.CloseLoopRampRate)
    (hbase : 0 ≤ (if pid.notFirst = false then ext.BDC_GetThrot else pid.out))
    (h : PID_Calc1Ms ext pid pos false true = some s') :
    0 ≤ s'.out ∧
    ∀ (ticks : List Tick) (s'' : pid_t),
      (∀ t ∈ ticks, t.oneDirOnly = true ∧ t.revMotDuringCloseLoopEn = false ∧
        0 ≤ t.ext.MotControlProf_GetSlot.CloseLoopRampRate) →
      runTicks s' ticks = some s'' → 0 ≤ s''.out := by
  have hout := oneDir_tick_nonneg hR hbase h
  exact ⟨hout, fun ticks s'' hall hrun =>
    runTicks_oneDir_nonneg ticks s' s'' (PID_Calc1Ms_eq_some h).2.1 hout hall hrun⟩

theorem oneDir_nonneg_preserved_witness :
    0 ≤ restAfterRamp.out :=
  (oneDir_nonneg_preserved (specExternals rampSlot 0) restPid restAfterRamp 0
    (by norm_num [specExternals, rampSlot, scenarioSlot])
    (by norm_num [restPid, scenarioPid]) rest_ramp_eval).1

/-- C19, first scan discards stale state: two states with `notFirst = 0` and the same
setpoint, whatever their other fields, give the same result of `PID_Calc1Ms` under the same
process variable, flags, profile and driver throttle: the same state in every field, or no
state for both. -/
theorem first_scan_discards_stale (ext : Externals) (pidA pidB : pid_t) (pos : Int)
    (rev one : Bool)
    (hA : pidA.notFirst = false) (hB : pidB.notFirst = false)
    (ht : pidA.target = pidB.target) :
    PID_Calc1Ms ext pidA pos rev one = PID_Calc1Ms ext pidB pos rev one := by
  obtain ⟨nfA, tA, eA, iA, dA, obA, oA, pA⟩ := pidA
  obtain ⟨nfB, tB, eB, iB, dB, obB, oB, pB⟩ := pidB
  simp only at hA hB ht
  subst hA hB ht
  unfold PID_Calc1Ms
  cases toInt32 (tA - (pos : ℚ)) with
  | none => rfl
  | some err =>
    simp only [integralStep, derivativeStep, preRampStep, armStep]
    rfl

theorem first_scan_discards_stale_witness :
    stalePid ≠ scenarioPid ∧
    PID_Calc1Ms (specExternals rampSlot 0) stalePid 0 false false =
      PID_Calc1Ms (specExternals rampSlot 0) scenarioPid 0 false false ∧
    PID_Calc1Ms (specExternals rampSlot 0) scenarioPid 0 false false = some rampAfter :=
  ⟨by simp [stalePid, scenarioPid],
    first_scan_discards_stale (specExternals rampSlot 0) stalePid scenarioPid 0 false false
      rfl rfl rfl,
    ramp_eval⟩

/-- C20, the setpoint is read-only: `PID_Calc1Ms` leaves the field `target` unchanged. -/
theorem target_unchanged (ext : Externals) (pid s' : pid_t) (pos : Int) (rev one : Bool)
    (h : PID_Calc1Ms ext pid pos rev one = some s') :
    s'.target = pid.target :=
  (PID_Calc1Ms_eq_some h).2.2.1

theorem target_unchanged_witness :
    secondAfter.target = ({ rampAfter with target := secondTick.target } : pid_t).target :=
  target_unchanged secondTick.ext { rampAfter with target := secondTick.target }
    secondAfter secondTick.pos secondTick.revMotDuringCloseLoopEn secondTick.oneDirOnly
    second_eval

end TalonSRX
